import Mathlib

/-!
Verification development for the maxyfold data pipeline.

This file gives a shallow embedding, in Lean 4, of the three core
components of the repository:

* the dataset splitter (src/maxyfold/data/splits/pdb_splitter.py,
  method assign_splits);
* the cropping engine (src/maxyfold/data/cropping/croppers.py);
* the structure encoder (src/maxyfold/data/processing/pdb_processor.py,
  with the vocabulary tables of
  src/maxyfold/data/constants/atom_constants.py).

Modelling conventions:

* Python strings are Lean Strings; Python string primitives that the
  code relies on (strip, upper, substring search, single character
  replace, lexicographic order used by sorted) are re-implemented
  structurally on the underlying character list so that the kernel can
  evaluate them on concrete inputs.
* numpy float coordinates and mask entries are modelled with exact
  integers; every concrete input used below takes small integer values,
  which float32 represents exactly, so no rounding behaviour is lost.
  Python float split ratios are modelled with rationals.
* Python sets are modelled as duplicate-free lists whose internal order
  is never observed except through sorting: the only set iteration the
  splitter performs is inside sorted(...).
* numpy random draws (randint, choice, rand) are modelled as explicit
  parameters; a variant that draws an index from a pool of size n is
  given an arbitrary natural number u and uses u mod n, which reaches
  exactly the support of the original draw.
* np.argsort is modelled as a stable sort on indices by key; no theorem
  below depends on how argsort breaks ties, and all concrete inputs used
  in counterexamples have pairwise distinct keys.
-/

namespace Maxyfold

/-! ## Python string primitives, re-implemented structurally -/

/-- Lexicographic comparison of character lists by code point, the order
Python uses to compare strings. -/
def pyCharListLe : List Char → List Char → Bool
  | [], _ => true
  | _ :: _, [] => false
  | a :: as, b :: bs =>
    if a.toNat < b.toNat then true
    else if b.toNat < a.toNat then false
    else pyCharListLe as bs

/-- Python string comparison `a <= b` (code point lexicographic). -/
def pyStrLe (a b : String) : Prop := pyCharListLe a.data b.data = true

instance : DecidableRel pyStrLe := fun a b => by unfold pyStrLe; infer_instance

instance : IsTotal String pyStrLe :=
  ⟨fun a b => by
    show pyCharListLe a.data b.data = true ∨ pyCharListLe b.data a.data = true
    generalize a.data = xs
    generalize b.data = ys
    induction xs generalizing ys with
    | nil => left; rfl
    | cons x xs ih =>
      cases ys with
      | nil => right; rfl
      | cons y ys =>
        by_cases h1 : x.toNat < y.toNat
        · left; simp [pyCharListLe, h1]
        · by_cases h2 : y.toNat < x.toNat
          · right; simp [pyCharListLe, h1, h2]
          · rcases ih ys with h | h
            · left; simp [pyCharListLe, h1, h2, h]
            · right; simp [pyCharListLe, h1, h2, h]⟩

instance : IsTrans String pyStrLe :=
  ⟨fun a b c h1 h2 => by
    show pyCharListLe a.data c.data = true
    have H : ∀ xs ys zs : List Char, pyCharListLe xs ys = true →
        pyCharListLe ys zs = true → pyCharListLe xs zs = true := by
      intro xs
      induction xs with
      | nil => intro ys zs _ _; rfl
      | cons x xs ih =>
        intro ys zs h1 h2
        cases ys with
        | nil => simp [pyCharListLe] at h1
        | cons y ys =>
          cases zs with
          | nil => simp [pyCharListLe] at h2
          | cons z zs =>
            simp only [pyCharListLe] at h1 h2 ⊢
            split at h1
            · rename_i hxy
              split at h2
              · rename_i hyz; simp [show x.toNat < z.toNat by omega]
              · split at h2
                · simp at h2
                · rename_i hyz hzy
                  simp [show x.toNat < z.toNat by omega]
            · split at h1
              · simp at h1
              · rename_i hxy hyx
                split at h2
                · rename_i hyz; simp [show x.toNat < z.toNat by omega]
                · split at h2
                  · simp at h2
                  · rename_i hyz hzy
                    have : ¬ x.toNat < z.toNat := by omega
                    have : ¬ z.toNat < x.toNat := by omega
                    simp_all [ih ys zs h1 h2]
    exact H a.data b.data c.data h1 h2⟩

instance : IsAntisymm String pyStrLe :=
  ⟨fun a b h1 h2 => by
    have H : ∀ xs ys : List Char, pyCharListLe xs ys = true →
        pyCharListLe ys xs = true → xs = ys := by
      intro xs
      induction xs with
      | nil =>
        intro ys h1 h2
        cases ys with
        | nil => rfl
        | cons y ys => simp [pyCharListLe] at h2
      | cons x xs ih =>
        intro ys h1 h2
        cases ys with
        | nil => simp [pyCharListLe] at h1
        | cons y ys =>
          simp only [pyCharListLe] at h1 h2
          split at h1
          · rename_i hxy
            simp [pyCharListLe, show ¬ y.toNat < x.toNat by omega, hxy] at h2
          · split at h1
            · simp at h1
            · rename_i hxy hyx
              simp [show ¬ y.toNat < x.toNat by omega, show ¬ x.toNat < y.toNat by omega] at h2
              have hn : x.toNat = y.toNat := by omega
              have hc : x = y := Char.ext (UInt32.toNat.inj hn)
              rw [hc, ih ys h1 h2]
    cases a
    cases b
    exact congrArg String.mk (H _ _ h1 h2)⟩

/-- Characters Python `str.strip()` removes (the ones that occur in the
data handled by this code base). -/
def pySpace (c : Char) : Bool := c = ' ' || c = '\t' || c = '\n' || c = '\r'

/-- Python `s.strip()`. -/
def pyStrip (s : String) : String :=
  ⟨((s.data.dropWhile pySpace).reverse.dropWhile pySpace).reverse⟩

/-- ASCII uppercase of one character, as Python `str.upper()` does for
the ASCII range used by residue and element codes. -/
def pyUpperChar (c : Char) : Char :=
  if 97 ≤ c.toNat ∧ c.toNat ≤ 122 then Char.ofNat (c.toNat - 32) else c

/-- Python `s.upper()`. -/
def pyUpper (s : String) : String := ⟨s.data.map pyUpperChar⟩

/-- Substring search on character lists. -/
def listContainsSub : List Char → List Char → Bool
  | [], pat => pat.isEmpty
  | c :: rest, pat => pat.isPrefixOf (c :: rest) || listContainsSub rest pat

/-- Python `pat in s` (substring containment). -/
def pyContains (s pat : String) : Bool := listContainsSub s.data pat.data

/-- Python `s.replace(old, new)` for a single character pattern and a
single character replacement, the only form the encoder uses. -/
def pyReplaceChar (s : String) (old new : Char) : String :=
  ⟨s.data.map (fun c => if c = old then new else c)⟩

/-- Python `x.split(sep)[0]` for a single character separator. -/
def pySplitFirst (s : String) (sep : Char) : String :=
  ⟨s.data.takeWhile (fun c => ¬ c = sep)⟩

/-- Python `sorted(...)` on strings. -/
def sortKeys (l : List String) : List String := List.insertionSort pyStrLe l

/-! ## Dataset splitter (PDBDataSplitter.assign_splits) -/

/-- `cluster_df['member'].apply(lambda x: x.split('_')[0])`: the pdb id
of a member chain id. -/
def pdbOf (member : String) : String := pySplitFirst member '_'

/-- `cluster_df.groupby('representative')['pdb_id'].apply(set).tolist()`:
group the member pdb ids of the cluster table by representative (pandas
groups in sorted key order) into one set per cluster.  Each Python set
is modelled as a duplicate-free list; its internal iteration order is
arbitrary at run time, so theorems about the splitter quantify over
permutations of these lists. -/
def clustersOf (table : List (String × String)) : List (List String) :=
  (sortKeys (table.map Prod.fst).dedup).map
    (fun rep => ((table.filter (fun row => row.1 = rep)).map (fun row => pdbOf row.2)).dedup)

/-- `int(ratio * n_clusters)`: a slice boundary from a split ratio.
Ratios are nonnegative, so Python int() truncation is the floor. -/
def sliceIdx (r : ℚ) (n : ℕ) : ℕ := (⌊r * n⌋).toNat

/-- `clusters[:train_end]`. -/
def trainSegment (cs : List (List String)) (tEnd : ℕ) : List (List String) := cs.take tEnd

/-- `clusters[train_end:val_end]`. -/
def valSegment (cs : List (List String)) (tEnd vEnd : ℕ) : List (List String) :=
  (cs.drop tEnd).take (vEnd - tEnd)

/-- `clusters[val_end:]`. -/
def testSegment (cs : List (List String)) (vEnd : ℕ) : List (List String) := cs.drop vEnd

/-- The split files (train_keys.txt, val_keys.txt, test_keys.txt), each
as its list of lines. -/
structure SplitFiles where
  train : List String
  val : List String
  test : List String
deriving DecidableEq

/-- The body of `assign_splits` after the shuffle, with the two slice
boundaries already computed: build the three pdb id sets by union over
each segment, subtract `train` from `val` and `train | val` from `test`
(the final cleanup in the source), and write each set sorted. -/
def assignSplitsAt (cs : List (List String)) (tEnd vEnd : ℕ) : SplitFiles :=
  let trainSet := (trainSegment cs tEnd).flatten.dedup
  let valSet := ((valSegment cs tEnd vEnd).flatten.dedup).filter
    (fun x => decide (¬ x ∈ trainSet))
  let testSet := ((testSegment cs vEnd).flatten.dedup).filter
    (fun x => decide (¬ (x ∈ trainSet ∨ x ∈ valSet)))
  ⟨sortKeys trainSet, sortKeys valSet, sortKeys testSet⟩

/-- `assign_splits` on an already shuffled cluster list: slice boundaries
`train_end = int(r1 * n)` and `val_end = train_end + int(r2 * n)`, then
segment union, cleanup and sorted output. -/
def assignSplits (cs : List (List String)) (r1 r2 : ℚ) : SplitFiles :=
  assignSplitsAt cs (sliceIdx r1 cs.length) (sliceIdx r1 cs.length + sliceIdx r2 cs.length)

/-- `rng.shuffle(clusters)`: Python reorders the cluster list in place by
a position permutation that depends only on the seed and the list
length.  The permutation is modelled as an explicit index list shared by
any two runs with the same seed and cluster count. -/
def applyShuffle (p : List ℕ) (cs : List (List String)) : List (List String) :=
  p.filterMap (fun i => cs[i]?)

/-! ## Vocabulary tables (constants/atom_constants.py) -/

/-- The token vocabulary: 20 amino acids, 8 nucleotides, UNK, LIGAND. -/
def restypes : List String :=
  ["ALA", "ARG", "ASN", "ASP", "CYS", "GLN", "GLU", "GLY", "HIS", "ILE",
   "LEU", "LYS", "MET", "PHE", "PRO", "SER", "THR", "TRP", "TYR", "VAL",
   "DA", "DC", "DG", "DT", "A", "C", "G", "U",
   "UNK",
   "LIGAND"]

/-- `res_to_idx.get(r, UNK_IDX)`. -/
def resToIdx (r : String) : Int :=
  match restypes.indexOf? r with
  | some i => (i : Int)
  | none => 28

/-- `UNK_IDX = res_to_idx['UNK']`. -/
def UNK_IDX : Int := resToIdx "UNK"

/-- `LIGAND_IDX = res_to_idx['LIGAND']`. -/
def LIGAND_IDX : Int := resToIdx "LIGAND"

/-- `MAX_ATOM_COUNT = 27`. -/
def MAX_ATOM_COUNT : ℕ := 27

/-- The periodic table used by `get_element_id` (index = element id). -/
def elements : List String :=
  ["X", "H", "HE", "LI", "BE", "B", "C", "N", "O", "F", "NE",
   "NA", "MG", "AL", "SI", "P", "S", "CL", "AR", "K", "CA",
   "SC", "TI", "V", "CR", "MN", "FE", "CO", "NI", "CU", "ZN",
   "GA", "GE", "AS", "SE", "BR", "KR", "RB", "SR", "Y", "ZR",
   "NB", "MO", "TC", "RU", "RH", "PD", "AG", "CD", "IN", "SN",
   "SB", "TE", "I", "XE", "CS", "BA", "LA", "CE", "PR", "ND",
   "PM", "SM", "EU", "GD", "TB", "DY", "HO", "ER", "TM", "YB",
   "LU", "HF", "TA", "W", "RE", "OS", "IR", "PT", "AU", "HG",
   "TL", "PB", "BI", "PO", "AT", "RN", "FR", "RA", "AC", "TH",
   "PA", "U", "NP", "PU", "AM", "CM", "BK", "CF", "ES", "FM",
   "MD", "NO", "LR", "RF", "DB", "SG", "BH", "HS", "MT", "DS",
   "RG", "CN", "NH", "FL", "MC", "LV", "TS", "OG"]

/-- `get_element_id(symbol)`: uppercase and strip the symbol, map
deuterium to hydrogen, fall back to 0 for unknown symbols. -/
def getElementId (symbol : String) : Int :=
  let t := pyStrip (pyUpper symbol)
  if t = "D" then ((elements.indexOf? "H").getD 0 : ℕ)
  else ((elements.indexOf? t).getD 0 : ℕ)

/-- Protein backbone atom names. -/
def prot_backbone : List String := ["N", "CA", "C", "O"]

/-- DNA backbone and sugar atom names. -/
def dna_backbone : List String :=
  ["P", "OP1", "OP2", "O5\x27", "C5\x27", "C4\x27", "O4\x27", "C3\x27",
   "O3\x27", "C2\x27", "C1\x27"]

/-- RNA backbone and sugar atom names (DNA plus the ribose oxygen). -/
def rna_backbone : List String := dna_backbone ++ ["O2\x27"]

/-- `ATOM_MAPS`: per residue type, the canonical atom name list; the
position of a name is its slot. -/
def ATOM_MAPS : List (String × List String) :=
  [("ALA", prot_backbone ++ ["CB"]),
   ("ARG", prot_backbone ++ ["CB", "CG", "CD", "NE", "CZ", "NH1", "NH2"]),
   ("ASN", prot_backbone ++ ["CB", "CG", "OD1", "ND2"]),
   ("ASP", prot_backbone ++ ["CB", "CG", "OD1", "OD2"]),
   ("CYS", prot_backbone ++ ["CB", "SG"]),
   ("GLN", prot_backbone ++ ["CB", "CG", "CD", "OE1", "NE2"]),
   ("GLU", prot_backbone ++ ["CB", "CG", "CD", "OE1", "OE2"]),
   ("GLY", prot_backbone),
   ("HIS", prot_backbone ++ ["CB", "CG", "ND1", "CD2", "CE1", "NE2"]),
   ("ILE", prot_backbone ++ ["CB", "CG1", "CG2", "CD1"]),
   ("LEU", prot_backbone ++ ["CB", "CG", "CD1", "CD2"]),
   ("LYS", prot_backbone ++ ["CB", "CG", "CD", "CE", "NZ"]),
   ("MET", prot_backbone ++ ["CB", "CG", "SD", "CE"]),
   ("PHE", prot_backbone ++ ["CB", "CG", "CD1", "CD2", "CE1", "CE2", "CZ"]),
   ("PRO", prot_backbone ++ ["CB", "CG", "CD"]),
   ("SER", prot_backbone ++ ["CB", "OG"]),
   ("THR", prot_backbone ++ ["CB", "OG1", "CG2"]),
   ("TRP", prot_backbone ++ ["CB", "CG", "CD1", "CD2", "NE1", "CE2", "CE3",
     "CZ2", "CZ3", "CH2"]),
   ("TYR", prot_backbone ++ ["CB", "CG", "CD1", "CD2", "CE1", "CE2", "CZ", "OH"]),
   ("VAL", prot_backbone ++ ["CB", "CG1", "CG2"]),
   ("UNK", prot_backbone ++ ["CB"]),
   ("A", rna_backbone ++ ["N9", "C8", "N7", "C5", "C6", "N6", "N1", "C2", "N3", "C4"]),
   ("G", rna_backbone ++ ["N9", "C8", "N7", "C5", "C6", "O6", "N1", "C2", "N2", "N3", "C4"]),
   ("C", rna_backbone ++ ["N1", "C2", "O2", "N3", "C4", "N4", "C5", "C6"]),
   ("U", rna_backbone ++ ["N1", "C2", "O2", "N3", "C4", "O4", "C5", "C6"]),
   ("DA", dna_backbone ++ ["N9", "C8", "N7", "C5", "C6", "N6", "N1", "C2", "N3", "C4"]),
   ("DG", dna_backbone ++ ["N9", "C8", "N7", "C5", "C6", "O6", "N1", "C2", "N2", "N3", "C4"]),
   ("DC", dna_backbone ++ ["N1", "C2", "O2", "N3", "C4", "N4", "C5", "C6"]),
   ("DT", dna_backbone ++ ["N1", "C2", "O2", "N3", "C4", "O4", "C5", "C7", "C6"])]

/-- Protein residue vocabulary of the polymer type heuristic. -/
def protein_res : List String :=
  ["ALA", "ARG", "ASN", "ASP", "CYS", "GLN", "GLU", "GLY", "HIS", "ILE",
   "LEU", "LYS", "MET", "PHE", "PRO", "SER", "THR", "TRP", "TYR", "VAL"]

/-- Nucleic residue vocabulary of the polymer type heuristic. -/
def nucleic_res : List String := ["DA", "DC", "DG", "DT", "A", "C", "G", "U"]

/-! ## Structure encoder (processing/pdb_processor.py) -/

/-- One parsed atom: name, coordinate, element symbol. -/
structure Atom where
  name : String
  x : Int
  y : Int
  z : Int
  element : String
deriving DecidableEq

/-- One output token: residue class and the three slot arrays. -/
structure Token where
  res_type : Int
  coords : List (Int × Int × Int)
  mask : List Int
  elems : List Int
deriving DecidableEq

/-- `self.res_lookups` access with fallback to the UNK map:
`self.res_lookups.get(rname, self.res_lookups.get('UNK', {}))`, where
each lookup maps an atom name to its slot. -/
def atomMapFor (rname : String) : List String :=
  (ATOM_MAPS.lookup rname).getD ((ATOM_MAPS.lookup "UNK").getD [])

/-- Atom name normalization in `_process_polymer`: the apostrophe branch
replaces the ASCII apostrophe by the ASCII apostrophe (this is what the
source writes, and it is an identity), then the legacy names O1P and O2P
are renamed. -/
def normalizeAtomName (s : String) : String :=
  let a := if pyContains s "\x27" then pyReplaceChar s '\x27' '\x27' else s
  let b := if a = "O1P" then "OP1" else a
  if b = "O2P" then "OP2" else b

/-- Water residue codes skipped by `_process_polymer`. -/
def waters_polymer : List String := ["HOH", "DOD", "WAT"]

/-- Water or solvent residue codes skipped by `_process_ligand`. -/
def waters_ligand : List String := ["HOH", "DOD", "WAT", "SOL"]

/-- `_process_polymer`, for one residue: skip waters, otherwise emit one
token; every observed atom is normalized, looked up in the slot map of
the residue, and recorded at its slot when matched, silently dropped
when not. -/
def processPolymerResidue (rname0 : String) (atoms : List Atom) : Option Token :=
  let rname := pyUpper (pyStrip rname0)
  if rname ∈ waters_polymer then none
  else
    let amap := atomMapFor rname
    let final := atoms.foldl
      (fun (acc : List (Int × Int × Int) × List Int × List Int) atom =>
        let aname := normalizeAtomName atom.name
        match amap.indexOf? aname with
        | some idx =>
          (acc.1.set idx (atom.x, atom.y, atom.z), acc.2.1.set idx 1,
           acc.2.2.set idx (getElementId atom.element))
        | none => acc)
      (List.replicate MAX_ATOM_COUNT ((0 : Int), (0 : Int), (0 : Int)),
       List.replicate MAX_ATOM_COUNT (0 : Int),
       List.replicate MAX_ATOM_COUNT (0 : Int))
    some ⟨resToIdx rname, final.1, final.2.1, final.2.2⟩

/-- The token `_process_ligand` emits for one reference atom: element id
from the reference in slot 0; coordinate and mask 1 in slot 0 when the
atom is observed (`pdb_atoms` keeps the last atom of a given stripped
name, as a Python dict comprehension does), otherwise mask 0 and a zero
coordinate. -/
def ligandTokenOf (atoms : List Atom) (ra : String × String) : Token :=
  match (atoms.filter (fun a => pyStrip a.name = ra.1)).getLast? with
  | some a =>
    ⟨LIGAND_IDX, (a.x, a.y, a.z) :: List.replicate 26 ((0 : Int), (0 : Int), (0 : Int)),
     (1 : Int) :: List.replicate 26 (0 : Int),
     getElementId ra.2 :: List.replicate 26 (0 : Int)⟩
  | none =>
    ⟨LIGAND_IDX, List.replicate 27 ((0 : Int), (0 : Int), (0 : Int)),
     List.replicate 27 (0 : Int),
     getElementId ra.2 :: List.replicate 26 (0 : Int)⟩

/-- `_process_ligand`, for one residue: skip waters and solvent; look up
the reference atom list (`self.ligand_ref_atoms.get(rname)`); skip the
residue when there is no entry (`if not reference_atoms`, which also
catches an empty list); otherwise emit one LIGAND token per reference
atom. -/
def processLigandResidue (ligandRef : List (String × List (String × String)))
    (rname0 : String) (atoms : List Atom) : List Token :=
  let rname := pyUpper (pyStrip rname0)
  if rname ∈ waters_ligand then []
  else
    match ligandRef.lookup rname with
    | none => []
    | some refAtoms =>
      if refAtoms = [] then []
      else refAtoms.map (ligandTokenOf atoms)

/-- The entity poly type loop (check 1 of `_get_chain_polymer_type`):
scan the `_entity_poly` rows; on the first row of this entity whose
uppercased type contains PEPTIDE return PROTEIN, on NUCLEOTIDE return
NUCLEIC; otherwise keep scanning. -/
def entityPolyCheck : List (String × String) → String → Option String
  | [], _ => none
  | (ent, pt) :: rest, entityId =>
    if ent = entityId ∧ pyContains (pyUpper pt) "PEPTIDE" = true then some "PROTEIN"
    else if ent = entityId ∧ pyContains (pyUpper pt) "NUCLEOTIDE" = true then some "NUCLEIC"
    else entityPolyCheck rest entityId

/-- `_get_chain_polymer_type`: check 1 uses the `_entity_poly` type
rows; when that is absent or inconclusive, check 2 takes the
`_entity_poly_seq` residue codes of the entity and votes: PROTEIN when
the protein fraction exceeds 0.8, else NUCLEIC when the nucleic fraction
exceeds 0.8, else UNKNOWN. -/
def getChainPolymerType (polyTypes : List (String × String))
    (polySeq : List (String × String)) (entityId : String) : String :=
  match entityPolyCheck polyTypes entityId with
  | some t => t
  | none =>
    let resList := (polySeq.filter (fun r => r.1 = entityId)).map Prod.snd
    let nProt := (resList.filter (fun r => r ∈ protein_res)).length
    let nNuc := (resList.filter (fun r => r ∈ nucleic_res)).length
    if 0 < resList.length ∧ ((8 : ℚ) / 10 < (nProt : ℚ) / (resList.length : ℚ)) then "PROTEIN"
    else if 0 < resList.length ∧ ((8 : ℚ) / 10 < (nNuc : ℚ) / (resList.length : ℚ)) then "NUCLEIC"
    else "UNKNOWN"

/-- The dispatch in `parse_cif_string`: a polymer chain is tokenized
by `_process_polymer` exactly when its polymer type is PROTEIN or
NUCLEIC; any other type (UNKNOWN included) goes to `_process_ligand`. -/
def tokenizedAsLigandSet (polymerType : String) : Bool :=
  ¬ (polymerType = "PROTEIN" ∨ polymerType = "NUCLEIC")

/-! ## Cropping engine (cropping/croppers.py) -/

/-- A token stream: the per token arrays of one structure, indexed in
parallel.  Slot arrays have MAX_ATOM_COUNT entries per token. -/
structure TokenData where
  pdb_id : String
  res_type : List Int
  chain_ids : List Int
  mask : List (List Int)
  atom_elements : List (List Int)
  coords : List (List (Int × Int × Int))
deriving DecidableEq

/-- Array alignment: all per token arrays share the first dimension and
all slot arrays have MAX_ATOM_COUNT entries. -/
def WF (d : TokenData) : Prop :=
  d.chain_ids.length = d.res_type.length ∧
  d.mask.length = d.res_type.length ∧
  d.atom_elements.length = d.res_type.length ∧
  d.coords.length = d.res_type.length ∧
  (∀ m ∈ d.mask, m.length = MAX_ATOM_COUNT) ∧
  (∀ e ∈ d.atom_elements, e.length = MAX_ATOM_COUNT) ∧
  (∀ c ∈ d.coords, c.length = MAX_ATOM_COUNT)

instance (d : TokenData) : Decidable (WF d) := by unfold WF; infer_instance

/-- `_pad_to_size`: right-pad every per token array to `crop_size` with
the pad token id for `res_type`, -1 for `chain_ids` and zeros
elsewhere. -/
def padToSize (cropSize : ℕ) (padId : Int) (d : TokenData) : TokenData :=
  let padLen := cropSize - d.res_type.length
  { pdb_id := d.pdb_id
    res_type := d.res_type ++ List.replicate padLen padId
    chain_ids := d.chain_ids ++ List.replicate padLen (-1)
    mask := d.mask ++ List.replicate padLen (List.replicate MAX_ATOM_COUNT 0)
    atom_elements := d.atom_elements ++ List.replicate padLen (List.replicate MAX_ATOM_COUNT 0)
    coords := d.coords ++ List.replicate padLen (List.replicate MAX_ATOM_COUNT (0, 0, 0)) }

/-- `np.max` of an integer list (np.max errors on an empty array; the
empty case defaults to 0 and is never reached on well-formed data). -/
def listMax (l : List Int) : Int := l.foldl max (l.headD 0)

/-- `np.argmax`: index of the first occurrence of the maximum. -/
def listArgmax (l : List Int) : ℕ := l.indexOf (listMax l)

/-- `_get_representative_coords`, one token: the coordinate of the first
resolved slot when the mask has a positive entry, the origin
otherwise. -/
def repCoord (m : List Int) (c : List (Int × Int × Int)) : Int × Int × Int :=
  if 0 < listMax m then c.getD (listArgmax m) (0, 0, 0) else (0, 0, 0)

/-- `_get_representative_coords`: one representative coordinate per
token. -/
def repCoords (d : TokenData) : List (Int × Int × Int) :=
  (List.range d.res_type.length).map
    (fun i => repCoord (d.mask.getD i []) (d.coords.getD i []))

/-- Squared euclidean distance between two coordinates. -/
def sqDist (a b : Int × Int × Int) : Int :=
  (a.1 - b.1) ^ 2 + (a.2.1 - b.2.1) ^ 2 + (a.2.2 - b.2.2) ^ 2

/-- `np.where((chain_ids == c) & (res_type == LIGAND_IDX))`: the token
indices of the ligand molecule on chain `c`, in stream order. -/
def ligandSiblings (d : TokenData) (c : Int) : List ℕ :=
  (List.range d.res_type.length).filter
    (fun i => decide (d.chain_ids.getD i (-1) = c ∧ d.res_type.getD i (-1) = LIGAND_IDX))

/-- Insert every element of `l` into the duplicate-free list `sel`
(Python `set.update`). -/
def selUnion (sel : List ℕ) (l : List ℕ) : List ℕ :=
  l.foldl (fun acc x => acc.insert x) sel

/-- The greedy pass of `_spatial_crop_from_center`: walk the tokens in
distance order; stop once `crop_size` tokens are selected; a ligand
token brings its whole molecule or is skipped when the molecule does not
fit; other tokens are selected one by one.  The Python selection set is
modelled as a duplicate-free list. -/
def greedySelect (d : TokenData) (cropSize : ℕ) : List ℕ → List ℕ → List ℕ
  | [], sel => sel
  | i :: rest, sel =>
    if cropSize ≤ sel.length then sel
    else if d.res_type.getD i (-1) = LIGAND_IDX then
      let sibs := ligandSiblings d (d.chain_ids.getD i (-1))
      if sel.length + sibs.length ≤ cropSize then greedySelect d cropSize rest (selUnion sel sibs)
      else greedySelect d cropSize rest sel
    else greedySelect d cropSize rest (sel.insert i)

/-- `np.argsort(dists)` on token indices, by squared distance to the
representative coordinate of the center token (modelled as a stable
sort). -/
def distOrder (d : TokenData) (center : ℕ) : List ℕ :=
  let rc := repCoords d
  let c := rc.getD center (0, 0, 0)
  List.insertionSort
    (fun i j => sqDist (rc.getD i (0, 0, 0)) c ≤ sqDist (rc.getD j (0, 0, 0)) c)
    (List.range d.res_type.length)

/-- The index selection of `_spatial_crop_from_center`: greedy pass in
distance order, then `sorted(list(selected_indices))`; when short of
`crop_size`, extend with the closest not yet selected tokens and sort
again. -/
def spatialCropIdx (cropSize : ℕ) (d : TokenData) (center : ℕ) : List ℕ :=
  let sorted := distOrder d center
  let sel := greedySelect d cropSize sorted []
  let selList := List.insertionSort (· ≤ ·) sel
  if selList.length < cropSize then
    List.insertionSort (· ≤ ·)
      (selList ++ (sorted.filter (fun i => decide (¬ i ∈ sel))).take (cropSize - selList.length))
  else selList

/-- Fancy indexing `arr[crop_idx]`. -/
def gather {α : Type} (l : List α) (idx : List ℕ) (dflt : α) : List α :=
  idx.map (fun i => l.getD i dflt)

/-- `_spatial_crop_from_center`: gather every per token array at the
selected indices. -/
def spatialCropFromCenter (cropSize : ℕ) (d : TokenData) (center : ℕ) : TokenData :=
  let ci := spatialCropIdx cropSize d center
  { pdb_id := d.pdb_id
    res_type := gather d.res_type ci 0
    chain_ids := gather d.chain_ids ci 0
    mask := gather d.mask ci []
    atom_elements := gather d.atom_elements ci []
    coords := gather d.coords ci [] }

/-- Python slice `arr[start:end]`. -/
def sliceList {α : Type} (l : List α) (start len : ℕ) : List α := (l.drop start).take len

/-- `ContiguousCropper.__call__`: pad when the stream fits, else slice a
window of `crop_size` tokens at a random start offset
(`np.random.randint(0, max_start + 1)` is modelled as `u` mod
`max_start + 1`). -/
def contiguousCropper (cropSize : ℕ) (padId : Int) (u : ℕ) (d : TokenData) : TokenData :=
  let L := d.res_type.length
  if L ≤ cropSize then padToSize cropSize padId d
  else
    let start := u % (L - cropSize + 1)
    { pdb_id := d.pdb_id
      res_type := sliceList d.res_type start cropSize
      chain_ids := sliceList d.chain_ids start cropSize
      mask := sliceList d.mask start cropSize
      atom_elements := sliceList d.atom_elements start cropSize
      coords := sliceList d.coords start cropSize }

/-- `SpatialCropper.__call__`: pad when the stream fits, else spatial
selection from a random center token. -/
def spatialCropper (cropSize : ℕ) (padId : Int) (u : ℕ) (d : TokenData) : TokenData :=
  let L := d.res_type.length
  if L ≤ cropSize then padToSize cropSize padId d
  else spatialCropFromCenter cropSize d (u % L)

/-- The interface token pool of `InterfaceBiasedCropper.__call__`: the
tokens whose representative coordinate lies within the cutoff of a token
on a different chain (same chain pairs are masked to infinity in the
source, modelled by requiring different chain ids). -/
def interfaceTokens (d : TokenData) (cutoffSq : ℚ) : List ℕ :=
  let rc := repCoords d
  (List.range d.res_type.length).filter
    (fun i => decide (∃ j ∈ List.range d.res_type.length,
      ¬ d.chain_ids.getD i (-1) = d.chain_ids.getD j (-1) ∧
      ((sqDist (rc.getD i (0, 0, 0)) (rc.getD j (0, 0, 0)) : ℚ) < cutoffSq)))

/-- `InterfaceBiasedCropper.__call__`: pad when the stream fits;
otherwise center on a random interface token when any exists
(`np.random.choice` modelled as `u` mod pool size), with a random
fallback center. -/
def interfaceBiasedCropper (cropSize : ℕ) (padId : Int) (cutoffSq : ℚ) (u v : ℕ)
    (d : TokenData) : TokenData :=
  let L := d.res_type.length
  if L ≤ cropSize then padToSize cropSize padId d
  else
    let pool := interfaceTokens d cutoffSq
    let center := if 0 < pool.length then pool.getD (u % pool.length) 0 else v % L
    spatialCropFromCenter cropSize d center

/-- `EntityStratifiedCropper.__call__`: pad when the stream fits;
otherwise center on a random ligand token when the biased coin demands
it and any exists, else on a random polymer token, else anywhere. -/
def entityStratifiedCropper (cropSize : ℕ) (padId : Int) (coin : Bool) (u v : ℕ)
    (d : TokenData) : TokenData :=
  let L := d.res_type.length
  if L ≤ cropSize then padToSize cropSize padId d
  else
    let lig := (List.range L).filter (fun i => decide (d.res_type.getD i (-1) = LIGAND_IDX))
    let pol := (List.range L).filter (fun i => decide (¬ d.res_type.getD i (-1) = LIGAND_IDX))
    let center :=
      if 0 < lig.length ∧ coin = true then lig.getD (u % lig.length) 0
      else if 0 < pol.length then pol.getD (u % pol.length) 0
      else v % L
    spatialCropFromCenter cropSize d center

/-- All per token arrays have first dimension `n`. -/
def allLens (d : TokenData) (n : ℕ) : Prop :=
  d.res_type.length = n ∧ d.chain_ids.length = n ∧ d.mask.length = n ∧
  d.atom_elements.length = n ∧ d.coords.length = n

instance (d : TokenData) (n : ℕ) : Decidable (allLens d n) := by unfold allLens; infer_instance

/-- A concrete six token stream: three protein tokens on chain 0 near
the origin and one three atom ligand molecule on chain 1 further away,
with pairwise distinct squared distances from every token. -/
def spatialFixture : TokenData :=
  { pdb_id := "t"
    res_type := [0, 0, 0, LIGAND_IDX, LIGAND_IDX, LIGAND_IDX]
    chain_ids := [0, 0, 0, 1, 1, 1]
    mask := List.replicate 6 ((1 : Int) :: List.replicate 26 0)
    atom_elements := List.replicate 6 (List.replicate 27 0)
    coords := [((0, 0, 0) : Int × Int × Int) :: List.replicate 26 (0, 0, 0),
      ((1, 0, 0) : Int × Int × Int) :: List.replicate 26 (0, 0, 0),
      ((2, 0, 0) : Int × Int × Int) :: List.replicate 26 (0, 0, 0),
      ((10, 0, 0) : Int × Int × Int) :: List.replicate 26 (0, 0, 0),
      ((11, 0, 0) : Int × Int × Int) :: List.replicate 26 (0, 0, 0),
      ((12, 0, 0) : Int × Int × Int) :: List.replicate 26 (0, 0, 0)] }

/-! ## Splitter lemmas -/

theorem mem_sortKeys {x : String} {l : List String} : x ∈ sortKeys l ↔ x ∈ l := by
  simp [sortKeys]

theorem sortKeys_eq_of_perm {l1 l2 : List String} (h : l1.Perm l2) :
    sortKeys l1 = sortKeys l2 :=
  List.eq_of_perm_of_sorted
    (((List.perm_insertionSort _ l1).trans h).trans (List.perm_insertionSort _ l2).symm)
    (List.sorted_insertionSort _ l1) (List.sorted_insertionSort _ l2)

theorem mem_assign_train {cs : List (List String)} {tEnd vEnd : ℕ} {x : String} :
    x ∈ (assignSplitsAt cs tEnd vEnd).train ↔ x ∈ (trainSegment cs tEnd).flatten := by
  simp [assignSplitsAt, mem_sortKeys]

theorem mem_assign_val {cs : List (List String)} {tEnd vEnd : ℕ} {x : String} :
    x ∈ (assignSplitsAt cs tEnd vEnd).val ↔
      x ∈ (valSegment cs tEnd vEnd).flatten ∧ x ∉ (trainSegment cs tEnd).flatten := by
  simp [assignSplitsAt, mem_sortKeys, List.mem_filter]

theorem mem_assign_test {cs : List (List String)} {tEnd vEnd : ℕ} {x : String} :
    x ∈ (assignSplitsAt cs tEnd vEnd).test ↔
      x ∈ (testSegment cs vEnd).flatten ∧ x ∉ (trainSegment cs tEnd).flatten ∧
        x ∉ (valSegment cs tEnd vEnd).flatten := by
  simp only [assignSplitsAt, mem_sortKeys, List.mem_filter, List.mem_dedup,
    decide_eq_true_eq, not_or]
  tauto

/-- C1 (amended): the splitter assigns by the reverse precedence: a
structure with any cluster in the train segment goes to train; else, one
with any cluster in the val segment goes to val; else, one with any
cluster in the test segment goes to test.  The claimed precedence (test
over val over train) is refuted by `assign_splits_claimed_precedence_cx`:
the final cleanup in `assign_splits` subtracts the train set from val
and the train and val sets from test, so train wins every overlap. -/
theorem assign_splits_precedence (cs : List (List String)) (tEnd vEnd : ℕ) (s : String) :
    (s ∈ (trainSegment cs tEnd).flatten →
      s ∈ (assignSplitsAt cs tEnd vEnd).train ∧
      s ∉ (assignSplitsAt cs tEnd vEnd).val ∧
      s ∉ (assignSplitsAt cs tEnd vEnd).test) ∧
    (s ∉ (trainSegment cs tEnd).flatten → s ∈ (valSegment cs tEnd vEnd).flatten →
      s ∉ (assignSplitsAt cs tEnd vEnd).train ∧
      s ∈ (assignSplitsAt cs tEnd vEnd).val ∧
      s ∉ (assignSplitsAt cs tEnd vEnd).test) ∧
    (s ∉ (trainSegment cs tEnd).flatten → s ∉ (valSegment cs tEnd vEnd).flatten →
      s ∈ (testSegment cs vEnd).flatten →
      s ∉ (assignSplitsAt cs tEnd vEnd).train ∧
      s ∉ (assignSplitsAt cs tEnd vEnd).val ∧
      s ∈ (assignSplitsAt cs tEnd vEnd).test) := by
  refine ⟨fun ht => ?_, fun ht hv => ?_, fun ht hv hw => ?_⟩
  · simp [mem_assign_train, mem_assign_val, mem_assign_test, ht]
  · simp [mem_assign_train, mem_assign_val, mem_assign_test, ht, hv]
  · simp [mem_assign_train, mem_assign_val, mem_assign_test, ht, hv, hw]

/-- Witness for `assign_splits_precedence` at a concrete input: three
singleton clusters, boundaries 1 and 2, the structure in the test
segment cluster. -/
theorem assign_splits_precedence_witness :
    "C" ∉ (trainSegment [["A"], ["B"], ["C"]] 1).flatten ∧
    "C" ∉ (valSegment [["A"], ["B"], ["C"]] 1 2).flatten ∧
    "C" ∈ (testSegment [["A"], ["B"], ["C"]] 2).flatten ∧
    ("C" ∉ (assignSplitsAt [["A"], ["B"], ["C"]] 1 2).train ∧
     "C" ∉ (assignSplitsAt [["A"], ["B"], ["C"]] 1 2).val ∧
     "C" ∈ (assignSplitsAt [["A"], ["B"], ["C"]] 1 2).test) :=
  ⟨by decide, by decide, by decide,
   (assign_splits_precedence [["A"], ["B"], ["C"]] 1 2 "C").2.2
     (by decide) (by decide) (by decide)⟩

/-- C1 (counterexample): with the clusters of the table
representative R1 with member A, representative R2 with members A and B,
the shuffled cluster list is one of the two orders below; under the
default ratios (0.9, 0.05, 0.05) both boundaries are 1, so in either
order structure A has a cluster in the test segment, yet A is written to
train_keys and not to test_keys: test does not take priority. -/
theorem assign_splits_claimed_precedence_cx :
    ("A" ∈ (testSegment [["A"], ["A", "B"]]
        (sliceIdx ((9 : ℚ) / 10) 2 + sliceIdx ((1 : ℚ) / 20) 2)).flatten ∧
     "A" ∈ (assignSplits [["A"], ["A", "B"]] ((9 : ℚ) / 10) ((1 : ℚ) / 20)).train ∧
     "A" ∉ (assignSplits [["A"], ["A", "B"]] ((9 : ℚ) / 10) ((1 : ℚ) / 20)).test) ∧
    ("A" ∈ (testSegment [["A", "B"], ["A"]]
        (sliceIdx ((9 : ℚ) / 10) 2 + sliceIdx ((1 : ℚ) / 20) 2)).flatten ∧
     "A" ∈ (assignSplits [["A", "B"], ["A"]] ((9 : ℚ) / 10) ((1 : ℚ) / 20)).train ∧
     "A" ∉ (assignSplits [["A", "B"], ["A"]] ((9 : ℚ) / 10) ((1 : ℚ) / 20)).test) := by
  have hA : sliceIdx ((9 : ℚ) / 10) 2 = 1 := by norm_num [sliceIdx]
  have hB : sliceIdx ((1 : ℚ) / 20) 2 = 0 := by norm_num [sliceIdx]
  refine ⟨⟨?_, ?_, ?_⟩, ⟨?_, ?_, ?_⟩⟩ <;>
    simp only [assignSplits, List.length_cons, List.length_nil, hA, hB] <;> decide

/-! ## C2: leakage across splits -/

theorem segments_decomp (cs : List (List String)) (tEnd vEnd : ℕ) (h : tEnd ≤ vEnd) :
    trainSegment cs tEnd ++ (valSegment cs tEnd vEnd ++ testSegment cs vEnd) = cs := by
  have hw : testSegment cs vEnd = (cs.drop tEnd).drop (vEnd - tEnd) := by
    unfold testSegment
    rw [List.drop_drop]
    congr 1
    omega
  unfold trainSegment valSegment
  rw [hw, List.take_append_drop, List.take_append_drop]

theorem append3_eq_single {α : Type} {a b c : List α} {x : α} (h : a ++ (b ++ c) = [x]) :
    (a = [x] ∧ b = [] ∧ c = []) ∨ (a = [] ∧ b = [x] ∧ c = []) ∨
    (a = [] ∧ b = [] ∧ c = [x]) := by
  cases a with
  | nil =>
    cases b with
    | nil => right; right; exact ⟨rfl, rfl, by simpa using h⟩
    | cons y bs =>
      right; left
      simp only [List.nil_append, List.cons_append, List.cons.injEq] at h
      rcases h with ⟨rfl, h2⟩
      rcases List.append_eq_nil.mp h2 with ⟨rfl, rfl⟩
      exact ⟨rfl, rfl, rfl⟩
  | cons y as =>
    left
    simp only [List.cons_append, List.cons.injEq] at h
    rcases h with ⟨rfl, h2⟩
    rcases List.append_eq_nil.mp h2 with ⟨rfl, h3⟩
    rcases List.append_eq_nil.mp h3 with ⟨rfl, rfl⟩
    exact ⟨rfl, rfl, rfl⟩

theorem not_mem_flatten_of_filter_nil {s : String} {S : List (List String)}
    (h : S.filter (fun cl => decide (s ∈ cl)) = []) : s ∉ S.flatten := by
  rw [List.mem_flatten]
  rintro ⟨cl, hcl, hs⟩
  have := List.filter_eq_nil_iff.mp h cl hcl
  simp [hs] at this

theorem mem_flatten_of_filter_single {s : String} {S : List (List String)} {c : List String}
    (h : S.filter (fun cl => decide (s ∈ cl)) = [c]) : c ∈ S ∧ s ∈ c := by
  have hc : c ∈ S.filter (fun cl => decide (s ∈ cl)) := by rw [h]; exact List.mem_singleton_self c
  have := List.mem_filter.mp hc
  simpa using this

/-- C2 (amended): two structures that share a similarity cluster are
assigned to the same split provided each of the two structures belongs
to exactly one cluster (stated: the shared cluster occurrence is the
only cluster of the shuffled list containing the structure).  Without
that proviso the claim is false: `no_leakage_cx` exhibits a structure in
two clusters that drags one cluster mate into train while the other
stays in test. -/
theorem no_leakage_single_cluster (cs : List (List String)) (tEnd vEnd : ℕ)
    (hts : tEnd ≤ vEnd) (s t : String) (c : List String)
    (hs : cs.filter (fun cl => decide (s ∈ cl)) = [c])
    (ht : cs.filter (fun cl => decide (t ∈ cl)) = [c]) :
    ((s ∈ (assignSplitsAt cs tEnd vEnd).train ↔ t ∈ (assignSplitsAt cs tEnd vEnd).train) ∧
     (s ∈ (assignSplitsAt cs tEnd vEnd).val ↔ t ∈ (assignSplitsAt cs tEnd vEnd).val) ∧
     (s ∈ (assignSplitsAt cs tEnd vEnd).test ↔ t ∈ (assignSplitsAt cs tEnd vEnd).test)) := by
  have hdec := segments_decomp cs tEnd vEnd hts
  have hsd : (trainSegment cs tEnd).filter (fun cl => decide (s ∈ cl)) ++
      ((valSegment cs tEnd vEnd).filter (fun cl => decide (s ∈ cl)) ++
       (testSegment cs vEnd).filter (fun cl => decide (s ∈ cl))) = [c] := by
    rw [← List.filter_append, ← List.filter_append, hdec, hs]
  have htd : (trainSegment cs tEnd).filter (fun cl => decide (t ∈ cl)) ++
      ((valSegment cs tEnd vEnd).filter (fun cl => decide (t ∈ cl)) ++
       (testSegment cs vEnd).filter (fun cl => decide (t ∈ cl))) = [c] := by
    rw [← List.filter_append, ← List.filter_append, hdec, ht]
  have hmemfil : ∀ (u : String) (S : List (List String)), c ∈ S → u ∈ c →
      S.filter (fun cl => decide (u ∈ cl)) ≠ [] := by
    intro u S hcS huc hnil
    have := List.filter_eq_nil_iff.mp hnil c hcS
    simp [huc] at this
  rcases append3_eq_single hsd with ⟨hs1, hs2, hs3⟩ | ⟨hs1, hs2, hs3⟩ | ⟨hs1, hs2, hs3⟩ <;>
    rcases append3_eq_single htd with ⟨ht1, ht2, ht3⟩ | ⟨ht1, ht2, ht3⟩ | ⟨ht1, ht2, ht3⟩
  · obtain ⟨hcT, hsc⟩ := mem_flatten_of_filter_single hs1
    obtain ⟨-, htc⟩ := mem_flatten_of_filter_single ht1
    simp [mem_assign_train, mem_assign_val, mem_assign_test,
      List.mem_flatten.mpr ⟨c, hcT, hsc⟩, List.mem_flatten.mpr ⟨c, hcT, htc⟩]
  · obtain ⟨hcT, hsc⟩ := mem_flatten_of_filter_single hs1
    obtain ⟨-, htc⟩ := mem_flatten_of_filter_single ht2
    exact absurd ht1 (hmemfil t _ hcT htc)
  · obtain ⟨hcT, hsc⟩ := mem_flatten_of_filter_single hs1
    obtain ⟨-, htc⟩ := mem_flatten_of_filter_single ht3
    exact absurd ht1 (hmemfil t _ hcT htc)
  · obtain ⟨hcV, hsc⟩ := mem_flatten_of_filter_single hs2
    obtain ⟨-, htc⟩ := mem_flatten_of_filter_single ht1
    exact absurd ht2 (hmemfil t _ hcV htc)
  · obtain ⟨hcV, hsc⟩ := mem_flatten_of_filter_single hs2
    obtain ⟨-, htc⟩ := mem_flatten_of_filter_single ht2
    simp [mem_assign_train, mem_assign_val, mem_assign_test,
      List.mem_flatten.mpr ⟨c, hcV, hsc⟩, List.mem_flatten.mpr ⟨c, hcV, htc⟩,
      not_mem_flatten_of_filter_nil hs1, not_mem_flatten_of_filter_nil ht1]
  · obtain ⟨hcV, hsc⟩ := mem_flatten_of_filter_single hs2
    obtain ⟨-, htc⟩ := mem_flatten_of_filter_single ht3
    exact absurd ht2 (hmemfil t _ hcV htc)
  · obtain ⟨hcW, hsc⟩ := mem_flatten_of_filter_single hs3
    obtain ⟨-, htc⟩ := mem_flatten_of_filter_single ht1
    exact absurd ht3 (hmemfil t _ hcW htc)
  · obtain ⟨hcW, hsc⟩ := mem_flatten_of_filter_single hs3
    obtain ⟨-, htc⟩ := mem_flatten_of_filter_single ht2
    exact absurd ht3 (hmemfil t _ hcW htc)
  · obtain ⟨hcW, hsc⟩ := mem_flatten_of_filter_single hs3
    obtain ⟨-, htc⟩ := mem_flatten_of_filter_single ht3
    simp [mem_assign_train, mem_assign_val, mem_assign_test,
      List.mem_flatten.mpr ⟨c, hcW, hsc⟩, List.mem_flatten.mpr ⟨c, hcW, htc⟩,
      not_mem_flatten_of_filter_nil hs1, not_mem_flatten_of_filter_nil ht1,
      not_mem_flatten_of_filter_nil hs2, not_mem_flatten_of_filter_nil ht2]

/-- Witness for `no_leakage_single_cluster`: structures B and C share
the val segment cluster and belong to no other cluster. -/
theorem no_leakage_single_cluster_witness :
    ([["A"], ["B", "C"], ["D"]].filter (fun cl => decide ("B" ∈ cl)) = [["B", "C"]]) ∧
    ([["A"], ["B", "C"], ["D"]].filter (fun cl => decide ("C" ∈ cl)) = [["B", "C"]]) ∧
    (("B" ∈ (assignSplitsAt [["A"], ["B", "C"], ["D"]] 1 2).train ↔
      "C" ∈ (assignSplitsAt [["A"], ["B", "C"], ["D"]] 1 2).train) ∧
     ("B" ∈ (assignSplitsAt [["A"], ["B", "C"], ["D"]] 1 2).val ↔
      "C" ∈ (assignSplitsAt [["A"], ["B", "C"], ["D"]] 1 2).val) ∧
     ("B" ∈ (assignSplitsAt [["A"], ["B", "C"], ["D"]] 1 2).test ↔
      "C" ∈ (assignSplitsAt [["A"], ["B", "C"], ["D"]] 1 2).test)) :=
  ⟨by decide, by decide,
   no_leakage_single_cluster [["A"], ["B", "C"], ["D"]] 1 2 (by decide) "B" "C"
     ["B", "C"] (by decide) (by decide)⟩

/-- C2 (counterexample): structure A sits in both clusters; whichever
order the shuffle produced, with the default ratios the first cluster is
the train segment and the second the test segment, A lands in train, and
the cluster mate sharing the test segment cluster with A lands in test:
two structures sharing a cluster in different splits. -/
theorem no_leakage_cx :
    ("A" ∈ (["A", "C"] : List String) ∧ "C" ∈ (["A", "C"] : List String) ∧
     ["A", "C"] ∈ [["A", "B"], ["A", "C"]] ∧
     "A" ∈ (assignSplits [["A", "B"], ["A", "C"]] ((9 : ℚ) / 10) ((1 : ℚ) / 20)).train ∧
     "C" ∈ (assignSplits [["A", "B"], ["A", "C"]] ((9 : ℚ) / 10) ((1 : ℚ) / 20)).test) ∧
    ("A" ∈ (["A", "B"] : List String) ∧ "B" ∈ (["A", "B"] : List String) ∧
     ["A", "B"] ∈ [["A", "C"], ["A", "B"]] ∧
     "A" ∈ (assignSplits [["A", "C"], ["A", "B"]] ((9 : ℚ) / 10) ((1 : ℚ) / 20)).train ∧
     "B" ∈ (assignSplits [["A", "C"], ["A", "B"]] ((9 : ℚ) / 10) ((1 : ℚ) / 20)).test) := by
  have hA : sliceIdx ((9 : ℚ) / 10) 2 = 1 := by norm_num [sliceIdx]
  have hB : sliceIdx ((1 : ℚ) / 20) 2 = 0 := by norm_num [sliceIdx]
  refine ⟨⟨by decide, by decide, by decide, ?_, ?_⟩, ⟨by decide, by decide, by decide, ?_, ?_⟩⟩ <;>
    simp only [assignSplits, List.length_cons, List.length_nil, hA, hB] <;> decide

/-! ## C9: determinism of the splitter -/

theorem forall₂_perm_symm {a b : List (List String)} (h : List.Forall₂ List.Perm a b) :
    List.Forall₂ List.Perm b a := by
  induction h with
  | nil => exact List.Forall₂.nil
  | cons h1 _ ih => exact List.Forall₂.cons h1.symm ih

theorem forall₂_perm_trans {a b c : List (List String)} (h1 : List.Forall₂ List.Perm a b)
    (h2 : List.Forall₂ List.Perm b c) : List.Forall₂ List.Perm a c := by
  induction h1 generalizing c with
  | nil => cases h2; exact List.Forall₂.nil
  | cons hab _ ih =>
    cases h2 with
    | cons hbc htl => exact List.Forall₂.cons (hab.trans hbc) (ih htl)

theorem assignSplitsAt_congr {cs1 cs2 : List (List String)} (tEnd vEnd : ℕ)
    (h : List.Forall₂ List.Perm cs1 cs2) :
    assignSplitsAt cs1 tEnd vEnd = assignSplitsAt cs2 tEnd vEnd := by
  have hT : ((trainSegment cs1 tEnd).flatten.dedup).Perm
      ((trainSegment cs2 tEnd).flatten.dedup) :=
    (List.Perm.flatten_congr (List.forall₂_take _ h)).dedup
  have hV : ((valSegment cs1 tEnd vEnd).flatten.dedup).Perm
      ((valSegment cs2 tEnd vEnd).flatten.dedup) :=
    (List.Perm.flatten_congr (List.forall₂_take _ (List.forall₂_drop _ h))).dedup
  have hW : ((testSegment cs1 vEnd).flatten.dedup).Perm
      ((testSegment cs2 vEnd).flatten.dedup) :=
    (List.Perm.flatten_congr (List.forall₂_drop _ h)).dedup
  have hVf : ((valSegment cs1 tEnd vEnd).flatten.dedup).filter
        (fun x => decide (¬ x ∈ (trainSegment cs1 tEnd).flatten.dedup)) |>.Perm
      (((valSegment cs2 tEnd vEnd).flatten.dedup).filter
        (fun x => decide (¬ x ∈ (trainSegment cs2 tEnd).flatten.dedup))) := by
    refine (hV.filter _).trans ?_
    rw [List.filter_congr]
    intro x _
    exact decide_eq_decide.mpr (by rw [hT.mem_iff])
  have hWf : ((testSegment cs1 vEnd).flatten.dedup).filter
        (fun x => decide (¬ (x ∈ (trainSegment cs1 tEnd).flatten.dedup ∨
          x ∈ ((valSegment cs1 tEnd vEnd).flatten.dedup).filter
            (fun y => decide (¬ y ∈ (trainSegment cs1 tEnd).flatten.dedup))))) |>.Perm
      (((testSegment cs2 vEnd).flatten.dedup).filter
        (fun x => decide (¬ (x ∈ (trainSegment cs2 tEnd).flatten.dedup ∨
          x ∈ ((valSegment cs2 tEnd vEnd).flatten.dedup).filter
            (fun y => decide (¬ y ∈ (trainSegment cs2 tEnd).flatten.dedup)))))) := by
    refine (hW.filter _).trans ?_
    rw [List.filter_congr]
    intro x _
    exact decide_eq_decide.mpr (by rw [hT.mem_iff, hVf.mem_iff])
  simp only [assignSplitsAt]
  rw [sortKeys_eq_of_perm hT, sortKeys_eq_of_perm hVf, sortKeys_eq_of_perm hWf]

theorem assignSplits_congr {cs1 cs2 : List (List String)} (r1 r2 : ℚ)
    (h : List.Forall₂ List.Perm cs1 cs2) :
    assignSplits cs1 r1 r2 = assignSplits cs2 r1 r2 := by
  unfold assignSplits
  rw [h.length_eq]
  exact assignSplitsAt_congr _ _ h

theorem applyShuffle_congr {cs1 cs2 : List (List String)}
    (h : List.Forall₂ List.Perm cs1 cs2) (p : List ℕ) :
    List.Forall₂ List.Perm (applyShuffle p cs1) (applyShuffle p cs2) := by
  induction p with
  | nil => exact List.Forall₂.nil
  | cons i p ih =>
    simp only [applyShuffle, List.filterMap_cons] at ih ⊢
    by_cases hi : i < cs1.length
    · have hi2 : i < cs2.length := h.length_eq ▸ hi
      rw [List.getElem?_eq_getElem hi, List.getElem?_eq_getElem hi2]
      exact List.Forall₂.cons (h.get hi hi2) ih
    · have hi2 : ¬ i < cs2.length := h.length_eq ▸ hi
      rw [List.getElem?_eq_none_iff.mpr (by omega), List.getElem?_eq_none_iff.mpr (by omega)]
      exact ih

/-- C9 (confirmed): determinism of `assign_splits`.  Two runs over the
byte-identical cluster table with the same ratios and seed write
byte-identical key files.  Given the same seed and cluster count,
`rng.shuffle` applies the same position permutation `p` in both runs;
the only run-to-run nondeterminism left is the iteration order of the
Python sets holding each cluster (string hashing is randomized per
process), modelled by letting each run see an arbitrary permutation of
every cluster list of `clustersOf table`.  The outputs are equal lists
of lines, hence byte-identical files. -/
theorem assign_splits_deterministic (table : List (String × String)) (p : List ℕ)
    (cs1 cs2 : List (List String)) (r1 r2 : ℚ)
    (h1 : List.Forall₂ List.Perm cs1 (clustersOf table))
    (h2 : List.Forall₂ List.Perm cs2 (clustersOf table)) :
    assignSplits (applyShuffle p cs1) r1 r2 = assignSplits (applyShuffle p cs2) r1 r2 :=
  assignSplits_congr r1 r2
    (applyShuffle_congr (forall₂_perm_trans h1 (forall₂_perm_symm h2)) p)

/-- Witness for `assign_splits_deterministic` at a concrete table with
two runs seeing the member sets in opposite iteration orders. -/
theorem assign_splits_deterministic_witness :
    (List.Forall₂ List.Perm [["1ABC", "2DEF"], ["3GHI"]]
      (clustersOf [("R1_A", "1ABC_A"), ("R1_A", "2DEF_A"), ("R2_B", "3GHI_A")])) ∧
    (List.Forall₂ List.Perm [["2DEF", "1ABC"], ["3GHI"]]
      (clustersOf [("R1_A", "1ABC_A"), ("R1_A", "2DEF_A"), ("R2_B", "3GHI_A")])) ∧
    assignSplits (applyShuffle [1, 0] [["1ABC", "2DEF"], ["3GHI"]]) ((9 : ℚ) / 10) ((1 : ℚ) / 20) =
      assignSplits (applyShuffle [1, 0] [["2DEF", "1ABC"], ["3GHI"]]) ((9 : ℚ) / 10) ((1 : ℚ) / 20) :=
  ⟨by decide, by decide,
   assign_splits_deterministic [("R1_A", "1ABC_A"), ("R1_A", "2DEF_A"), ("R2_B", "3GHI_A")]
     [1, 0] [["1ABC", "2DEF"], ["3GHI"]] [["2DEF", "1ABC"], ["3GHI"]]
     ((9 : ℚ) / 10) ((1 : ℚ) / 20) (by decide) (by decide)⟩

/-! ## C8: padding path -/

/-- C8 (confirmed): when the stream fits in the crop, every cropper
variant returns the input right-padded to `crop_size`, whatever its
random draws were (the parameters `u`, `v`, `coin` quantify over every
draw, so the padding path involves no randomness): positions below `L`
hold the input unchanged and the padded tail holds the pad token id for
`res_type`, -1 for `chain_ids`, all zero mask, coordinates and element
ids. -/
theorem cropper_padding (cropSize : ℕ) (padId : Int) (d : TokenData)
    (hWF : WF d) (hL : d.res_type.length ≤ cropSize)
    (u v : ℕ) (coin : Bool) (cutoffSq : ℚ) :
    contiguousCropper cropSize padId u d = padToSize cropSize padId d ∧
    spatialCropper cropSize padId u d = padToSize cropSize padId d ∧
    interfaceBiasedCropper cropSize padId cutoffSq u v d = padToSize cropSize padId d ∧
    entityStratifiedCropper cropSize padId coin u v d = padToSize cropSize padId d ∧
    (padToSize cropSize padId d).res_type.take d.res_type.length = d.res_type ∧
    (padToSize cropSize padId d).chain_ids.take d.res_type.length = d.chain_ids ∧
    (padToSize cropSize padId d).mask.take d.res_type.length = d.mask ∧
    (padToSize cropSize padId d).atom_elements.take d.res_type.length = d.atom_elements ∧
    (padToSize cropSize padId d).coords.take d.res_type.length = d.coords ∧
    (padToSize cropSize padId d).res_type.drop d.res_type.length =
      List.replicate (cropSize - d.res_type.length) padId ∧
    (padToSize cropSize padId d).chain_ids.drop d.res_type.length =
      List.replicate (cropSize - d.res_type.length) (-1) ∧
    (padToSize cropSize padId d).mask.drop d.res_type.length =
      List.replicate (cropSize - d.res_type.length) (List.replicate MAX_ATOM_COUNT 0) ∧
    (padToSize cropSize padId d).atom_elements.drop d.res_type.length =
      List.replicate (cropSize - d.res_type.length) (List.replicate MAX_ATOM_COUNT 0) ∧
    (padToSize cropSize padId d).coords.drop d.res_type.length =
      List.replicate (cropSize - d.res_type.length) (List.replicate MAX_ATOM_COUNT (0, 0, 0)) := by
  obtain ⟨hc, hm, ha, hx, -, -, -⟩ := hWF
  have htake : ∀ {α : Type} (l₁ l₂ : List α) (n : ℕ), l₁.length = n → (l₁ ++ l₂).take n = l₁ := by
    intro α l₁ l₂ n h
    subst h
    exact List.take_left _ _
  have hdrop : ∀ {α : Type} (l₁ l₂ : List α) (n : ℕ), l₁.length = n → (l₁ ++ l₂).drop n = l₂ := by
    intro α l₁ l₂ n h
    subst h
    exact List.drop_left _ _
  refine ⟨?_, ?_, ?_, ?_, ?_, ?_, ?_, ?_, ?_, ?_, ?_, ?_, ?_, ?_⟩
  · simp only [contiguousCropper]
    rw [if_pos hL]
  · simp only [spatialCropper]
    rw [if_pos hL]
  · simp only [interfaceBiasedCropper]
    rw [if_pos hL]
  · simp only [entityStratifiedCropper]
    rw [if_pos hL]
  · exact htake _ _ _ rfl
  · exact htake _ _ _ hc
  · exact htake _ _ _ hm
  · exact htake _ _ _ ha
  · exact htake _ _ _ hx
  · exact hdrop _ _ _ rfl
  · exact hdrop _ _ _ hc
  · exact hdrop _ _ _ hm
  · exact hdrop _ _ _ ha
  · exact hdrop _ _ _ hx

/-- Witness for `cropper_padding`: a one token stream padded to three
tokens, for arbitrary concrete random draws. -/
theorem cropper_padding_witness :
    WF ⟨"w", [0], [0], [List.replicate 27 0], [List.replicate 27 0],
      [List.replicate 27 (0, 0, 0)]⟩ ∧
    (⟨"w", [0], [0], [List.replicate 27 0], [List.replicate 27 0],
      [List.replicate 27 (0, 0, 0)]⟩ : TokenData).res_type.length ≤ 3 ∧
    contiguousCropper 3 0 7 ⟨"w", [0], [0], [List.replicate 27 0], [List.replicate 27 0],
        [List.replicate 27 (0, 0, 0)]⟩ =
      padToSize 3 0 ⟨"w", [0], [0], [List.replicate 27 0], [List.replicate 27 0],
        [List.replicate 27 (0, 0, 0)]⟩ :=
  ⟨by decide, by decide,
   (cropper_padding 3 0 _ (by decide) (by decide) 7 5 true 0).1⟩

/-! ## Greedy selection lemmas -/

theorem mem_selUnion {x : ℕ} : ∀ (l sel : List ℕ), x ∈ selUnion sel l ↔ x ∈ sel ∨ x ∈ l
  | [], sel => by simp [selUnion]
  | y :: ys, sel => by
    have h : selUnion sel (y :: ys) = selUnion (sel.insert y) ys := rfl
    rw [h, mem_selUnion ys (sel.insert y), List.mem_insert_iff]
    simp
    tauto

theorem selUnion_length_le : ∀ (l sel : List ℕ), (selUnion sel l).length ≤ sel.length + l.length
  | [], sel => by simp [selUnion]
  | y :: ys, sel => by
    have h : selUnion sel (y :: ys) = selUnion (sel.insert y) ys := rfl
    have h1 : (sel.insert y).length ≤ sel.length + 1 := by
      by_cases hy : y ∈ sel
      · simp [List.insert_of_mem hy]
      · simp [List.insert_of_not_mem hy]
    calc (selUnion sel (y :: ys)).length = (selUnion (sel.insert y) ys).length := by rw [h]
      _ ≤ (sel.insert y).length + ys.length := selUnion_length_le ys _
      _ ≤ sel.length + (y :: ys).length := by simp; omega

theorem selUnion_nodup : ∀ (l sel : List ℕ), sel.Nodup → (selUnion sel l).Nodup
  | [], _, h => h
  | y :: ys, sel, h => selUnion_nodup ys (sel.insert y) h.insert

theorem mem_ligandSiblings {d : TokenData} {c : Int} {i : ℕ} :
    i ∈ ligandSiblings d c ↔
      i < d.res_type.length ∧ d.chain_ids.getD i (-1) = c ∧
        d.res_type.getD i (-1) = LIGAND_IDX := by
  simp [ligandSiblings, List.mem_filter, List.mem_range]

theorem greedySelect_length_le (d : TokenData) (k : ℕ) :
    ∀ (rest sel : List ℕ), sel.length ≤ k → (greedySelect d k rest sel).length ≤ k
  | [], _, h => h
  | i :: rest, sel, h => by
    simp only [greedySelect]
    split
    · exact h
    · rename_i hlt
      split
      · split
        · rename_i hfit
          exact greedySelect_length_le d k rest _
            (le_trans (selUnion_length_le _ _) hfit)
        · exact greedySelect_length_le d k rest sel h
      · refine greedySelect_length_le d k rest _ ?_
        by_cases hy : i ∈ sel
        · simp [List.insert_of_mem hy]
          omega
        · simp [List.insert_of_not_mem hy]
          omega

theorem greedySelect_nodup (d : TokenData) (k : ℕ) :
    ∀ (rest sel : List ℕ), sel.Nodup → (greedySelect d k rest sel).Nodup
  | [], _, h => h
  | i :: rest, sel, h => by
    simp only [greedySelect]
    split
    · exact h
    · split
      · split
        · exact greedySelect_nodup d k rest _ (selUnion_nodup _ _ h)
        · exact greedySelect_nodup d k rest sel h
      · exact greedySelect_nodup d k rest _ h.insert

theorem greedySelect_mem_lt (d : TokenData) (k : ℕ) :
    ∀ (rest sel : List ℕ), (∀ x ∈ sel, x < d.res_type.length) →
      (∀ x ∈ rest, x < d.res_type.length) →
      ∀ x ∈ greedySelect d k rest sel, x < d.res_type.length
  | [], _, hs, _ => hs
  | i :: rest, sel, hs, hr => by
    simp only [greedySelect]
    split
    · exact hs
    · split
      · split
        · refine greedySelect_mem_lt d k rest _ ?_ (fun x hx => hr x (List.mem_cons_of_mem _ hx))
          intro x hx
          rcases (mem_selUnion _ _).mp hx with hx | hx
          · exact hs x hx
          · exact (mem_ligandSiblings.mp hx).1
        · exact greedySelect_mem_lt d k rest sel hs
            (fun x hx => hr x (List.mem_cons_of_mem _ hx))
      · refine greedySelect_mem_lt d k rest _ ?_ (fun x hx => hr x (List.mem_cons_of_mem _ hx))
        intro x hx
        rcases List.mem_insert_iff.mp hx with rfl | hx
        · exact hr x (List.mem_cons_self _ _)
        · exact hs x hx

theorem greedySelect_mono (d : TokenData) (k : ℕ) :
    ∀ (rest sel : List ℕ), ∀ x ∈ sel, x ∈ greedySelect d k rest sel
  | [], _, _, hx => hx
  | i :: rest, sel, x, hx => by
    simp only [greedySelect]
    split
    · exact hx
    · split
      · split
        · exact greedySelect_mono d k rest _ x ((mem_selUnion _ _).mpr (Or.inl hx))
        · exact greedySelect_mono d k rest sel x hx
      · exact greedySelect_mono d k rest _ x (List.mem_insert_iff.mpr (Or.inr hx))

theorem greedySelect_molecule (d : TokenData) (k : ℕ) :
    ∀ (rest sel : List ℕ),
      (∀ c : Int, (∃ i ∈ ligandSiblings d c, i ∈ sel) →
        ∀ j ∈ ligandSiblings d c, j ∈ sel) →
      ∀ c : Int, (∃ i ∈ ligandSiblings d c, i ∈ greedySelect d k rest sel) →
        ∀ j ∈ ligandSiblings d c, j ∈ greedySelect d k rest sel
  | [], _, hinv => hinv
  | i :: rest, sel, hinv => by
    simp only [greedySelect]
    split
    · exact hinv
    · split
      · rename_i hlig
        split
        · refine greedySelect_molecule d k rest _ ?_
          rintro c ⟨i', hi'sib, hi'mem⟩ j hj
          rcases (mem_selUnion _ _).mp hi'mem with hi'sel | hi'sibs
          · exact (mem_selUnion _ _).mpr (Or.inl (hinv c ⟨i', hi'sib, hi'sel⟩ j hj))
          · have hc : c = d.chain_ids.getD i (-1) := by
              have h1 := (mem_ligandSiblings.mp hi'sib).2.1
              have h2 := (mem_ligandSiblings.mp hi'sibs).2.1
              rw [← h1, h2]
            refine (mem_selUnion _ _).mpr (Or.inr ?_)
            rw [← hc]
            exact hj
        · exact greedySelect_molecule d k rest sel hinv
      · rename_i hnl
        refine greedySelect_molecule d k rest _ ?_
        rintro c ⟨i', hi'sib, hi'mem⟩ j hj
        rcases List.mem_insert_iff.mp hi'mem with rfl | hi'sel
        · exact absurd (mem_ligandSiblings.mp hi'sib).2.2 hnl
        · exact List.mem_insert_iff.mpr (Or.inr (hinv c ⟨i', hi'sib, hi'sel⟩ j hj))

theorem greedy_subset_spatialCropIdx (k : ℕ) (d : TokenData) (center : ℕ) :
    ∀ x ∈ greedySelect d k (distOrder d center) [], x ∈ spatialCropIdx k d center := by
  intro x hx
  simp only [spatialCropIdx]
  split
  · exact List.mem_insertionSort (· ≤ ·) |>.mpr
      (List.mem_append_left _ ((List.mem_insertionSort (· ≤ ·)).mpr hx))
  · exact (List.mem_insertionSort (· ≤ ·)).mpr hx

theorem spatialCropIdx_length (k : ℕ) (d : TokenData) (center : ℕ)
    (h : k < d.res_type.length) :
    (spatialCropIdx k d center).length = k := by
  have hperm : (distOrder d center).Perm (List.range d.res_type.length) :=
    List.perm_insertionSort _ _
  have hnd : (distOrder d center).Nodup := hperm.nodup_iff.mpr (List.nodup_range _)
  have hlen : (distOrder d center).length = d.res_type.length :=
    hperm.length_eq.trans (List.length_range _)
  have hmem : ∀ x ∈ distOrder d center, x < d.res_type.length := fun x hx =>
    List.mem_range.mp (hperm.subset hx)
  have hselnd : (greedySelect d k (distOrder d center) []).Nodup :=
    greedySelect_nodup d k _ [] List.nodup_nil
  have hselmem : ∀ x ∈ greedySelect d k (distOrder d center) [], x < d.res_type.length :=
    greedySelect_mem_lt d k _ [] (by simp) hmem
  have hsellen : (greedySelect d k (distOrder d center) []).length ≤ k :=
    greedySelect_length_le d k _ [] (by simp)
  have hfilin : ((distOrder d center).filter
      (fun i => decide (i ∈ greedySelect d k (distOrder d center) []))).Perm
      (greedySelect d k (distOrder d center) []) := by
    refine (List.perm_ext_iff_of_nodup (hnd.filter _) hselnd).mpr ?_
    intro a
    simp only [List.mem_filter, decide_eq_true_eq]
    constructor
    · exact fun ha => ha.2
    · intro ha
      refine ⟨?_, ha⟩
      have := hselmem a ha
      exact hperm.mem_iff.mpr (List.mem_range.mpr this)
  have hsplit : ((distOrder d center).filter
        (fun i => decide (i ∈ greedySelect d k (distOrder d center) []))).length +
      ((distOrder d center).filter
        (fun i => decide (¬ i ∈ greedySelect d k (distOrder d center) []))).length =
      d.res_type.length := by
    have hp := List.filter_append_perm
      (fun i => decide (i ∈ greedySelect d k (distOrder d center) [])) (distOrder d center)
    have hq : ((distOrder d center).filter
        (fun i => !decide (i ∈ greedySelect d k (distOrder d center) []))) =
        ((distOrder d center).filter
        (fun i => decide (¬ i ∈ greedySelect d k (distOrder d center) []))) := by
      refine List.filter_congr ?_
      intro x _
      simp
    rw [← hlen, ← hp.length_eq, List.length_append, hq]
  have hrem : ((distOrder d center).filter
      (fun i => decide (¬ i ∈ greedySelect d k (distOrder d center) []))).length =
      d.res_type.length - (greedySelect d k (distOrder d center) []).length := by
    have := hfilin.length_eq
    omega
  simp only [spatialCropIdx]
  split
  · rename_i hshort
    rw [List.length_insertionSort] at hshort ⊢
    rw [List.length_append, List.length_insertionSort, List.length_take, hrem]
    omega
  · rename_i hlong
    rw [List.length_insertionSort] at hlong ⊢
    omega

/-! ## C4: output shape -/

/-- C4 (confirmed): every cropper variant returns per token arrays of
first dimension exactly `crop_size`, on any well-formed input stream:
below or at `crop_size` the padding path fills up, above it the slice
or the spatial selection produces exactly `crop_size` indices.  The
parameters `u`, `v`, `coin` range over every possible random draw. -/
theorem cropper_output_shape (cropSize : ℕ) (padId : Int) (u v : ℕ) (coin : Bool)
    (cutoffSq : ℚ) (d : TokenData) (hWF : WF d) :
    allLens (contiguousCropper cropSize padId u d) cropSize ∧
    allLens (spatialCropper cropSize padId u d) cropSize ∧
    allLens (interfaceBiasedCropper cropSize padId cutoffSq u v d) cropSize ∧
    allLens (entityStratifiedCropper cropSize padId coin u v d) cropSize := by
  obtain ⟨hc, hm, ha, hx, -, -, -⟩ := hWF
  have hspatial : ∀ center : ℕ, ¬ d.res_type.length ≤ cropSize →
      allLens (spatialCropFromCenter cropSize d center) cropSize := by
    intro center hL
    have hlen := spatialCropIdx_length cropSize d center (by omega)
    simp [allLens, spatialCropFromCenter, gather, hlen]
  by_cases hL : d.res_type.length ≤ cropSize
  · have hpad : allLens (padToSize cropSize padId d) cropSize := by
      simp [allLens, padToSize, hc, hm, ha, hx]
      omega
    refine ⟨?_, ?_, ?_, ?_⟩
    · simp only [contiguousCropper]
      rw [if_pos hL]
      exact hpad
    · simp only [spatialCropper]
      rw [if_pos hL]
      exact hpad
    · simp only [interfaceBiasedCropper]
      rw [if_pos hL]
      exact hpad
    · simp only [entityStratifiedCropper]
      rw [if_pos hL]
      exact hpad
  · refine ⟨?_, ?_, ?_, ?_⟩
    · simp only [contiguousCropper]
      rw [if_neg hL]
      have hstart : u % (d.res_type.length - cropSize + 1) ≤ d.res_type.length - cropSize := by
        have := Nat.mod_lt u (show 0 < d.res_type.length - cropSize + 1 by omega)
        omega
      simp [allLens, sliceList, hc, hm, ha, hx]
      omega
    · simp only [spatialCropper]
      rw [if_neg hL]
      exact hspatial _ hL
    · simp only [interfaceBiasedCropper]
      rw [if_neg hL]
      exact hspatial _ hL
    · simp only [entityStratifiedCropper]
      rw [if_neg hL]
      exact hspatial _ hL

/-- Witness for `cropper_output_shape`: the six token fixture cropped to
one token by all four variants, at concrete random draws. -/
theorem cropper_output_shape_witness :
    WF spatialFixture ∧
    (allLens (contiguousCropper 1 0 3 spatialFixture) 1 ∧
     allLens (spatialCropper 1 0 3 spatialFixture) 1 ∧
     allLens (interfaceBiasedCropper 1 0 ((64 : ℕ) : ℚ) 3 5 spatialFixture) 1 ∧
     allLens (entityStratifiedCropper 1 0 true 3 5 spatialFixture) 1) :=
  ⟨by decide, cropper_output_shape 1 0 3 5 true ((64 : ℕ) : ℚ) spatialFixture (by decide)⟩

/-! ## C3: ligand integrity under spatial cropping -/

/-- C3 (amended): the greedy pass of the spatial selection engine never
splits a ligand molecule: if any token of a molecule enters the
selection during the greedy pass, the whole molecule is in the emitted
crop.  The claim as frozen (any molecule of size at most `crop_size`
with a token in the output is whole) is refuted by
`ligand_integrity_cx`: the post-greedy gap filling step adds single
closest tokens with no molecule logic, so a molecule skipped for size
reasons during the greedy pass can be partially dragged in. -/
theorem spatial_crop_ligand_integrity (cropSize : ℕ) (d : TokenData) (center : ℕ)
    (c : Int)
    (h : ∃ i ∈ ligandSiblings d c, i ∈ greedySelect d cropSize (distOrder d center) []) :
    ∀ j ∈ ligandSiblings d c, j ∈ spatialCropIdx cropSize d center := by
  intro j hj
  have hall : ∀ j ∈ ligandSiblings d c, j ∈ greedySelect d cropSize (distOrder d center) [] :=
    greedySelect_molecule d cropSize (distOrder d center) []
      (by rintro c' ⟨i', -, hi'⟩ j' _; simp at hi') c h
  exact greedy_subset_spatialCropIdx cropSize d center j (hall j hj)

set_option maxRecDepth 20000 in
/-- Witness for `spatial_crop_ligand_integrity`: centering the fixture
crop on the ligand, the molecule enters during the greedy pass and all
of it is in the emitted index set. -/
theorem spatial_crop_ligand_integrity_witness :
    (∃ i ∈ ligandSiblings spatialFixture 1,
      i ∈ greedySelect spatialFixture 4 (distOrder spatialFixture 3) []) ∧
    (∀ j ∈ ligandSiblings spatialFixture 1, j ∈ spatialCropIdx 4 spatialFixture 3) :=
  ⟨by decide, spatial_crop_ligand_integrity 4 spatialFixture 3 1 (by decide)⟩

set_option maxRecDepth 20000 in
/-- C3 (counterexample): cropping the fixture to four tokens centered on
the first protein token, the three token ligand molecule (size at most
the crop size) is skipped by the greedy pass (three selected protein
tokens plus three ligand tokens would overflow), and the gap filling
step then adds exactly one ligand token: the emitted crop contains one
token of the molecule but not the other two. -/
theorem ligand_integrity_cx :
    4 < spatialFixture.res_type.length ∧
    ligandSiblings spatialFixture 1 = [3, 4, 5] ∧
    (ligandSiblings spatialFixture 1).length ≤ 4 ∧
    3 ∈ spatialCropIdx 4 spatialFixture 0 ∧
    4 ∉ spatialCropIdx 4 spatialFixture 0 ∧
    5 ∉ spatialCropIdx 4 spatialFixture 0 ∧
    (spatialCropFromCenter 4 spatialFixture 0).res_type.count LIGAND_IDX = 1 := by
  decide

/-! ## C10: fully masked tokens in the interface pool -/

theorem listMax_nonpos {l : List Int} (h : ∀ x ∈ l, x ≤ 0) : listMax l ≤ 0 := by
  have hh : l.headD 0 ≤ 0 := by
    cases l with
    | nil => simp
    | cons y ys => exact h y (List.mem_cons_self _ _)
  unfold listMax
  have : ∀ (xs : List Int) (a : Int), a ≤ 0 → (∀ x ∈ xs, x ≤ 0) → xs.foldl max a ≤ 0 := by
    intro xs
    induction xs with
    | nil => intro a ha _; simpa using ha
    | cons y ys ih =>
      intro a ha hmem
      simp only [List.foldl_cons]
      exact ih _ (by simp [ha, hmem y (List.mem_cons_self _ _)])
        (fun x hx => hmem x (List.mem_cons_of_mem _ hx))
  exact this l _ hh h

theorem repCoord_of_all_nonpos {m : List Int} {c : List (Int × Int × Int)}
    (h : ∀ x ∈ m, x ≤ 0) : repCoord m c = (0, 0, 0) := by
  unfold repCoord
  rw [if_neg]
  have := listMax_nonpos h
  omega

theorem repCoords_getD {d : TokenData} {i : ℕ} (hi : i < d.res_type.length) :
    (repCoords d).getD i (0, 0, 0) = repCoord (d.mask.getD i []) (d.coords.getD i []) := by
  simp [repCoords, List.getD_eq_getElem?_getD, List.getElem?_map, List.getElem?_range, hi]

/-- C10 (confirmed): a token with no resolved slot gets the origin as
representative coordinate; two such tokens on different chains are at
squared distance 0 from each other, so (for any positive cutoff) both
are classified as interface tokens, hence eligible crop centers,
wherever their chains actually lie. -/
theorem interface_mask_zero_tokens (d : TokenData) (cutoffSq : ℚ) (i j : ℕ)
    (hi : i < d.res_type.length) (hj : j < d.res_type.length)
    (hchain : ¬ d.chain_ids.getD i (-1) = d.chain_ids.getD j (-1))
    (hmi : ∀ x ∈ d.mask.getD i [], x ≤ 0) (hmj : ∀ x ∈ d.mask.getD j [], x ≤ 0)
    (hcut : 0 < cutoffSq) :
    (repCoords d).getD i (0, 0, 0) = (0, 0, 0) ∧
    (repCoords d).getD j (0, 0, 0) = (0, 0, 0) ∧
    sqDist ((repCoords d).getD i (0, 0, 0)) ((repCoords d).getD j (0, 0, 0)) = 0 ∧
    i ∈ interfaceTokens d cutoffSq ∧
    j ∈ interfaceTokens d cutoffSq := by
  have hri : (repCoords d).getD i (0, 0, 0) = (0, 0, 0) := by
    rw [repCoords_getD hi]
    exact repCoord_of_all_nonpos hmi
  have hrj : (repCoords d).getD j (0, 0, 0) = (0, 0, 0) := by
    rw [repCoords_getD hj]
    exact repCoord_of_all_nonpos hmj
  refine ⟨hri, hrj, by rw [show sqDist ((repCoords d).getD i (0, 0, 0))
      ((repCoords d).getD j (0, 0, 0)) = sqDist (0, 0, 0) (0, 0, 0) by rw [hri, hrj]]; decide,
      ?_, ?_⟩
  · simp only [interfaceTokens, List.mem_filter, List.mem_range, decide_eq_true_eq]
    refine ⟨hi, j, hj, hchain, ?_⟩
    rw [hri, hrj]
    simpa [sqDist] using hcut
  · simp only [interfaceTokens, List.mem_filter, List.mem_range, decide_eq_true_eq]
    refine ⟨hj, i, hi, fun hc => hchain hc.symm, ?_⟩
    rw [hri, hrj]
    simpa [sqDist] using hcut

/-- Witness for `interface_mask_zero_tokens`: two fully unmasked tokens
on different chains whose stored coordinates are far apart, both
classified as interface tokens at the default cutoff (8.0 squared). -/
theorem interface_mask_zero_tokens_witness :
    (¬ (⟨"w2", [0, 0], [0, 1], [List.replicate 27 0, List.replicate 27 0],
        [List.replicate 27 0, List.replicate 27 0],
        [List.replicate 27 ((500, 500, 500) : Int × Int × Int),
         List.replicate 27 ((0, 0, 0) : Int × Int × Int)]⟩ : TokenData).chain_ids.getD 0 (-1) =
      (⟨"w2", [0, 0], [0, 1], [List.replicate 27 0, List.replicate 27 0],
        [List.replicate 27 0, List.replicate 27 0],
        [List.replicate 27 ((500, 500, 500) : Int × Int × Int),
         List.replicate 27 ((0, 0, 0) : Int × Int × Int)]⟩ : TokenData).chain_ids.getD 1 (-1)) ∧
    0 ∈ interfaceTokens ⟨"w2", [0, 0], [0, 1], [List.replicate 27 0, List.replicate 27 0],
        [List.replicate 27 0, List.replicate 27 0],
        [List.replicate 27 ((500, 500, 500) : Int × Int × Int),
         List.replicate 27 ((0, 0, 0) : Int × Int × Int)]⟩ ((64 : ℕ) : ℚ) ∧
    1 ∈ interfaceTokens ⟨"w2", [0, 0], [0, 1], [List.replicate 27 0, List.replicate 27 0],
        [List.replicate 27 0, List.replicate 27 0],
        [List.replicate 27 ((500, 500, 500) : Int × Int × Int),
         List.replicate 27 ((0, 0, 0) : Int × Int × Int)]⟩ ((64 : ℕ) : ℚ) := by
  have h := interface_mask_zero_tokens
    ⟨"w2", [0, 0], [0, 1], [List.replicate 27 0, List.replicate 27 0],
     [List.replicate 27 0, List.replicate 27 0],
     [List.replicate 27 ((500, 500, 500) : Int × Int × Int),
      List.replicate 27 ((0, 0, 0) : Int × Int × Int)]⟩ ((64 : ℕ) : ℚ) 0 1
    (by decide) (by decide) (by decide) (by decide) (by decide)
    (by exact_mod_cast (by decide : (0 : ℤ) < 64))
  exact ⟨by decide, h.2.2.2.1, h.2.2.2.2⟩

/-! ## C7: atom name normalization -/

set_option maxRecDepth 20000 in
/-- C7 (code bug): the O1P and O2P renames work, but the apostrophe
branch of `_process_polymer` replaces the ASCII apostrophe by the ASCII
apostrophe itself, a no-op: an atom whose name uses an alternate
apostrophe character (here the right single quotation mark U+2019) is
left unchanged, matches no slot of the residue map, and is silently
dropped (mask stays all zero), while the same atom under the canonical
name lands in slot 3 with mask 1.  The spec describes normalizing
alternate apostrophe characters, which this code cannot do. -/
theorem atom_name_normalization_bug :
    normalizeAtomName "O1P" = "OP1" ∧
    normalizeAtomName "O2P" = "OP2" ∧
    pyReplaceChar "O5\x27" '\x27' '\x27' = "O5\x27" ∧
    normalizeAtomName "O5’" = "O5’" ∧
    (atomMapFor "A").indexOf? "O5’" = none ∧
    (atomMapFor "A").indexOf? "O5\x27" = some 3 ∧
    (processPolymerResidue "A" [⟨"O5’", 1, 2, 3, "O"⟩]).map Token.mask =
      some (List.replicate 27 0) ∧
    (processPolymerResidue "A" [⟨"O5\x27", 1, 2, 3, "O"⟩]).map
      (fun t => t.mask.getD 3 0) = some 1 := by
  decide

/-! ## C6: polymer type fallback heuristic -/

/-- C6 (amended): when the entity poly type metadata yields nothing, the
fallback vote classifies the chain PROTEIN (respectively NUCLEIC)
exactly when strictly more than 80 percent of its residue codes are in
the protein (respectively nucleic) vocabulary; at exactly 80 percent or
below the chain is classified UNKNOWN and routed to the ligand
tokenizer.  The frozen claim states at least 80 percent; the strict
comparison `> 0.8` in the source makes the exact 80 percent case
UNKNOWN, refuted concretely by `polymer_type_threshold_cx`. -/
theorem get_chain_polymer_type_fallback (polyTypes polySeq : List (String × String))
    (entityId : String) (hmeta : entityPolyCheck polyTypes entityId = none) :
    (10 * ((((polySeq.filter (fun r => r.1 = entityId)).map Prod.snd).filter
          (fun r => r ∈ protein_res)).length) >
        8 * ((polySeq.filter (fun r => r.1 = entityId)).map Prod.snd).length →
      getChainPolymerType polyTypes polySeq entityId = "PROTEIN") ∧
    (10 * ((((polySeq.filter (fun r => r.1 = entityId)).map Prod.snd).filter
          (fun r => r ∈ protein_res)).length) ≤
        8 * ((polySeq.filter (fun r => r.1 = entityId)).map Prod.snd).length →
      10 * ((((polySeq.filter (fun r => r.1 = entityId)).map Prod.snd).filter
          (fun r => r ∈ nucleic_res)).length) >
        8 * ((polySeq.filter (fun r => r.1 = entityId)).map Prod.snd).length →
      getChainPolymerType polyTypes polySeq entityId = "NUCLEIC") ∧
    (10 * ((((polySeq.filter (fun r => r.1 = entityId)).map Prod.snd).filter
          (fun r => r ∈ protein_res)).length) ≤
        8 * ((polySeq.filter (fun r => r.1 = entityId)).map Prod.snd).length →
      10 * ((((polySeq.filter (fun r => r.1 = entityId)).map Prod.snd).filter
          (fun r => r ∈ nucleic_res)).length) ≤
        8 * ((polySeq.filter (fun r => r.1 = entityId)).map Prod.snd).length →
      getChainPolymerType polyTypes polySeq entityId = "UNKNOWN" ∧
        tokenizedAsLigandSet (getChainPolymerType polyTypes polySeq entityId) = true) := by
  have hple : (((polySeq.filter (fun r => r.1 = entityId)).map Prod.snd).filter
      (fun r => r ∈ protein_res)).length ≤
      ((polySeq.filter (fun r => r.1 = entityId)).map Prod.snd).length :=
    List.length_filter_le _ _
  have hnle : (((polySeq.filter (fun r => r.1 = entityId)).map Prod.snd).filter
      (fun r => r ∈ nucleic_res)).length ≤
      ((polySeq.filter (fun r => r.1 = entityId)).map Prod.snd).length :=
    List.length_filter_le _ _
  have hfrac : ∀ a L : ℕ, 0 < L →
      (((8 : ℚ) / 10 < (a : ℚ) / (L : ℚ)) ↔ 8 * L < 10 * a) := by
    intro a L hL
    rw [div_lt_div_iff₀ (by norm_num) (by exact_mod_cast hL)]
    constructor
    · intro h
      exact_mod_cast (by linarith : (8 : ℚ) * L < 10 * a)
    · intro h
      have : (8 : ℚ) * L < 10 * a := by exact_mod_cast h
      linarith
  refine ⟨fun hp => ?_, fun hp hn => ?_, fun hp hn => ?_⟩
  · have hL : 0 < ((polySeq.filter (fun r => r.1 = entityId)).map Prod.snd).length := by omega
    simp only [getChainPolymerType, hmeta]
    rw [if_pos ⟨hL, (hfrac _ _ hL).mpr (by omega)⟩]
  · have hL : 0 < ((polySeq.filter (fun r => r.1 = entityId)).map Prod.snd).length := by omega
    simp only [getChainPolymerType, hmeta]
    rw [if_neg, if_pos ⟨hL, (hfrac _ _ hL).mpr (by omega)⟩]
    rintro ⟨hL', hq⟩
    have := (hfrac _ _ hL').mp hq
    omega
  · simp only [getChainPolymerType, hmeta]
    rw [if_neg, if_neg]
    · exact ⟨rfl, by decide⟩
    · rintro ⟨hL', hq⟩
      have := (hfrac _ _ hL').mp hq
      omega
    · rintro ⟨hL', hq⟩
      have := (hfrac _ _ hL').mp hq
      omega

/-- Witness for `get_chain_polymer_type_fallback`: five residues of
which all five are protein codes (100 percent, strictly above the
threshold). -/
theorem get_chain_polymer_type_fallback_witness :
    entityPolyCheck [] "1" = none ∧
    (10 * (((([(("1" : String), ("ALA" : String)), ("1", "GLY"), ("1", "LEU"), ("1", "SER"),
        ("1", "VAL")].filter (fun r => r.1 = "1")).map Prod.snd).filter
          (fun r => r ∈ protein_res)).length) >
      8 * (([(("1" : String), ("ALA" : String)), ("1", "GLY"), ("1", "LEU"), ("1", "SER"),
        ("1", "VAL")].filter (fun r => r.1 = "1")).map Prod.snd).length) ∧
    getChainPolymerType [] [(("1" : String), ("ALA" : String)), ("1", "GLY"), ("1", "LEU"),
      ("1", "SER"), ("1", "VAL")] "1" = "PROTEIN" :=
  ⟨by decide, by decide,
   (get_chain_polymer_type_fallback [] [("1", "ALA"), ("1", "GLY"), ("1", "LEU"),
     ("1", "SER"), ("1", "VAL")] "1" (by decide)).1 (by decide)⟩

/-- C6 (counterexample): a chain with no usable metadata whose residue
codes are exactly 80 percent protein (four of five) is classified
UNKNOWN, not PROTEIN: the source compares with strictly greater than
0.8. -/
theorem polymer_type_threshold_cx :
    10 * (((([(("1" : String), ("ALA" : String)), ("1", "ALA"), ("1", "ALA"), ("1", "ALA"),
        ("1", "XYZ")].filter (fun r => r.1 = "1")).map Prod.snd).filter
          (fun r => r ∈ protein_res)).length) =
      8 * (([(("1" : String), ("ALA" : String)), ("1", "ALA"), ("1", "ALA"), ("1", "ALA"),
        ("1", "XYZ")].filter (fun r => r.1 = "1")).map Prod.snd).length ∧
    getChainPolymerType [] [(("1" : String), ("ALA" : String)), ("1", "ALA"), ("1", "ALA"),
      ("1", "ALA"), ("1", "XYZ")] "1" = "UNKNOWN" ∧
    ¬ getChainPolymerType [] [(("1" : String), ("ALA" : String)), ("1", "ALA"), ("1", "ALA"),
      ("1", "ALA"), ("1", "XYZ")] "1" = "PROTEIN" := by
  have hres : (([(("1" : String), ("ALA" : String)), ("1", "ALA"), ("1", "ALA"), ("1", "ALA"),
      ("1", "XYZ")].filter (fun r => r.1 = "1")).map Prod.snd) =
      ["ALA", "ALA", "ALA", "ALA", "XYZ"] := by decide
  have hnp : ((["ALA", "ALA", "ALA", "ALA", "XYZ"] : List String).filter
      (fun r => r ∈ protein_res)).length = 4 := by decide
  have hnn : ((["ALA", "ALA", "ALA", "ALA", "XYZ"] : List String).filter
      (fun r => r ∈ nucleic_res)).length = 0 := by decide
  have hval : getChainPolymerType [] [(("1" : String), ("ALA" : String)), ("1", "ALA"),
      ("1", "ALA"), ("1", "ALA"), ("1", "XYZ")] "1" = "UNKNOWN" := by
    simp only [getChainPolymerType, show entityPolyCheck [] "1" = none from rfl, hres,
      hnp, hnn]
    rw [if_neg, if_neg]
    · rintro ⟨-, hq⟩
      rw [show ((["ALA", "ALA", "ALA", "ALA", "XYZ"] : List String).length : ℚ) = 5 from by
        decide, div_lt_div_iff₀ (by norm_num) (by norm_num)] at hq
      norm_num at hq
    · rintro ⟨-, hq⟩
      rw [show ((["ALA", "ALA", "ALA", "ALA", "XYZ"] : List String).length : ℚ) = 5 from by
        decide, div_lt_div_iff₀ (by norm_num) (by norm_num)] at hq
      norm_num at hq
  refine ⟨by rw [hres, hnp]; decide, hval, by rw [hval]; decide⟩

/-! ## C5: ligand tokenization against the chemical reference -/

theorem ligandTokenOf_spec (atoms : List Atom) (ra : String × String) :
    (ligandTokenOf atoms ra).res_type = LIGAND_IDX ∧
    (ligandTokenOf atoms ra).elems = getElementId ra.2 :: List.replicate 26 0 ∧
    ((¬ ∃ a ∈ atoms, pyStrip a.name = ra.1) →
      (ligandTokenOf atoms ra).mask = List.replicate 27 0 ∧
      (ligandTokenOf atoms ra).coords = List.replicate 27 (0, 0, 0)) ∧
    ((∃ a ∈ atoms, pyStrip a.name = ra.1) →
      ∃ a, (atoms.filter (fun b => pyStrip b.name = ra.1)).getLast? = some a ∧
        a ∈ atoms ∧ pyStrip a.name = ra.1 ∧
        (ligandTokenOf atoms ra).mask = 1 :: List.replicate 26 0 ∧
        (ligandTokenOf atoms ra).coords = (a.x, a.y, a.z) :: List.replicate 26 (0, 0, 0)) := by
  unfold ligandTokenOf
  cases hlast : (atoms.filter (fun a => decide (pyStrip a.name = ra.1))).getLast? with
  | none =>
    have hnil : atoms.filter (fun a => decide (pyStrip a.name = ra.1)) = [] :=
      List.getLast?_eq_none_iff.mp hlast
    refine ⟨rfl, rfl, fun _ => ⟨rfl, rfl⟩, ?_⟩
    rintro ⟨a, ha, hname⟩
    have : a ∈ atoms.filter (fun a => decide (pyStrip a.name = ra.1)) :=
      List.mem_filter.mpr ⟨ha, by simp [hname]⟩
    rw [hnil] at this
    simp at this
  | some a =>
    have hmem := List.mem_of_getLast?_eq_some hlast
    have hma := List.mem_filter.mp hmem
    refine ⟨rfl, rfl, ?_, ?_⟩
    · intro hno
      exact absurd ⟨a, hma.1, by simpa using hma.2⟩ hno
    · intro _
      exact ⟨a, rfl, hma.1, by simpa using hma.2, rfl, rfl⟩

/-- C5 (confirmed): for a non water ligand residue, no reference entry
(or an empty one) yields no tokens, and a reference entry with atom
list `refAtoms` yields exactly one LIGAND token per reference atom, in
order: the element id always comes from the reference into slot 0; a
reference atom observed in the structure (some atom of the residue has
its stripped name) gets in slot 0 the coordinate of that atom (the last
matching one, as a Python dict comprehension keeps) together with mask
1; an absent one leaves an all zero mask and all zero coordinates. -/
theorem process_ligand_reference_tokens (ligandRef : List (String × List (String × String)))
    (rname : String) (atoms : List Atom)
    (hw : ¬ pyUpper (pyStrip rname) ∈ waters_ligand) :
    (ligandRef.lookup (pyUpper (pyStrip rname)) = none →
      processLigandResidue ligandRef rname atoms = []) ∧
    (∀ refAtoms, ligandRef.lookup (pyUpper (pyStrip rname)) = some refAtoms →
      (processLigandResidue ligandRef rname atoms).length = refAtoms.length ∧
      (∀ k, k < refAtoms.length →
        ((processLigandResidue ligandRef rname atoms).getD k ⟨0, [], [], []⟩).res_type =
          LIGAND_IDX ∧
        ((processLigandResidue ligandRef rname atoms).getD k ⟨0, [], [], []⟩).elems =
          getElementId (refAtoms.getD k ("", "")).2 :: List.replicate 26 0 ∧
        ((¬ ∃ a ∈ atoms, pyStrip a.name = (refAtoms.getD k ("", "")).1) →
          ((processLigandResidue ligandRef rname atoms).getD k ⟨0, [], [], []⟩).mask =
            List.replicate 27 0 ∧
          ((processLigandResidue ligandRef rname atoms).getD k ⟨0, [], [], []⟩).coords =
            List.replicate 27 (0, 0, 0)) ∧
        ((∃ a ∈ atoms, pyStrip a.name = (refAtoms.getD k ("", "")).1) →
          ∃ a, (atoms.filter
              (fun b => pyStrip b.name = (refAtoms.getD k ("", "")).1)).getLast? = some a ∧
            a ∈ atoms ∧ pyStrip a.name = (refAtoms.getD k ("", "")).1 ∧
            ((processLigandResidue ligandRef rname atoms).getD k ⟨0, [], [], []⟩).mask =
              1 :: List.replicate 26 0 ∧
            ((processLigandResidue ligandRef rname atoms).getD k ⟨0, [], [], []⟩).coords =
              (a.x, a.y, a.z) :: List.replicate 26 (0, 0, 0)))) := by
  constructor
  · intro hnone
    simp only [processLigandResidue, if_neg hw, hnone]
  · intro refAtoms href
    by_cases hre : refAtoms = []
    · subst hre
      simp [processLigandResidue, if_neg hw, href]
    · have hout : processLigandResidue ligandRef rname atoms =
          refAtoms.map (ligandTokenOf atoms) := by
        simp only [processLigandResidue, if_neg hw, href]
        rw [if_neg hre]
      rw [hout]
      refine ⟨List.length_map _ _, ?_⟩
      intro k hk
      have hgd : (refAtoms.map (ligandTokenOf atoms)).getD k ⟨0, [], [], []⟩ =
          ligandTokenOf atoms (refAtoms.getD k ("", "")) := by
        rw [List.getD_eq_getElem?_getD, List.getD_eq_getElem?_getD,
          List.getElem?_map, List.getElem?_eq_getElem hk]
        rfl
      rw [hgd]
      obtain ⟨h1, h2, h3, h4⟩ := ligandTokenOf_spec atoms (refAtoms.getD k ("", ""))
      exact ⟨h1, h2, h3, h4⟩

/-- Witness for `process_ligand_reference_tokens`, matching the concrete
scenario of the spec: a ligand with a fourteen atom reference list of
which ten atoms are present in the structure gives fourteen LIGAND
tokens with exactly four all zero masks. -/
theorem process_ligand_reference_tokens_witness :
    (¬ pyUpper (pyStrip "LIG") ∈ waters_ligand) ∧
    ([("LIG", [("A1", "C"), ("A2", "C"), ("A3", "C"), ("A4", "C"), ("A5", "C"),
        ("A6", "N"), ("A7", "N"), ("A8", "N"), ("A9", "O"), ("A10", "O"),
        ("A11", "O"), ("A12", "S"), ("A13", "S"), ("A14", "P")])].lookup
      (pyUpper (pyStrip "LIG")) =
      some [("A1", "C"), ("A2", "C"), ("A3", "C"), ("A4", "C"), ("A5", "C"),
        ("A6", "N"), ("A7", "N"), ("A8", "N"), ("A9", "O"), ("A10", "O"),
        ("A11", "O"), ("A12", "S"), ("A13", "S"), ("A14", "P")]) ∧
    (processLigandResidue [("LIG", [("A1", "C"), ("A2", "C"), ("A3", "C"), ("A4", "C"),
        ("A5", "C"), ("A6", "N"), ("A7", "N"), ("A8", "N"), ("A9", "O"), ("A10", "O"),
        ("A11", "O"), ("A12", "S"), ("A13", "S"), ("A14", "P")])] "LIG"
      [⟨"A1", 1, 0, 0, "C"⟩, ⟨"A2", 2, 0, 0, "C"⟩, ⟨"A3", 3, 0, 0, "C"⟩,
       ⟨"A4", 4, 0, 0, "C"⟩, ⟨"A5", 5, 0, 0, "C"⟩, ⟨"A6", 6, 0, 0, "N"⟩,
       ⟨"A7", 7, 0, 0, "N"⟩, ⟨"A8", 8, 0, 0, "N"⟩, ⟨"A9", 9, 0, 0, "O"⟩,
       ⟨"A10", 10, 0, 0, "O"⟩]).length = 14 ∧
    ((processLigandResidue [("LIG", [("A1", "C"), ("A2", "C"), ("A3", "C"), ("A4", "C"),
        ("A5", "C"), ("A6", "N"), ("A7", "N"), ("A8", "N"), ("A9", "O"), ("A10", "O"),
        ("A11", "O"), ("A12", "S"), ("A13", "S"), ("A14", "P")])] "LIG"
      [⟨"A1", 1, 0, 0, "C"⟩, ⟨"A2", 2, 0, 0, "C"⟩, ⟨"A3", 3, 0, 0, "C"⟩,
       ⟨"A4", 4, 0, 0, "C"⟩, ⟨"A5", 5, 0, 0, "C"⟩, ⟨"A6", 6, 0, 0, "N"⟩,
       ⟨"A7", 7, 0, 0, "N"⟩, ⟨"A8", 8, 0, 0, "N"⟩, ⟨"A9", 9, 0, 0, "O"⟩,
       ⟨"A10", 10, 0, 0, "O"⟩]).filter (fun t => t.mask.headD 0 = 0)).length = 4 ∧
    ((processLigandResidue [("LIG", [("A1", "C"), ("A2", "C"), ("A3", "C"), ("A4", "C"),
        ("A5", "C"), ("A6", "N"), ("A7", "N"), ("A8", "N"), ("A9", "O"), ("A10", "O"),
        ("A11", "O"), ("A12", "S"), ("A13", "S"), ("A14", "P")])] "LIG"
      [⟨"A1", 1, 0, 0, "C"⟩, ⟨"A2", 2, 0, 0, "C"⟩, ⟨"A3", 3, 0, 0, "C"⟩,
       ⟨"A4", 4, 0, 0, "C"⟩, ⟨"A5", 5, 0, 0, "C"⟩, ⟨"A6", 6, 0, 0, "N"⟩,
       ⟨"A7", 7, 0, 0, "N"⟩, ⟨"A8", 8, 0, 0, "N"⟩, ⟨"A9", 9, 0, 0, "O"⟩,
       ⟨"A10", 10, 0, 0, "O"⟩]).filter (fun t => t.res_type = LIGAND_IDX)).length = 14 ∧
    ((processLigandResidue [("LIG", [("A1", "C"), ("A2", "C"), ("A3", "C"), ("A4", "C"),
        ("A5", "C"), ("A6", "N"), ("A7", "N"), ("A8", "N"), ("A9", "O"), ("A10", "O"),
        ("A11", "O"), ("A12", "S"), ("A13", "S"), ("A14", "P")])] "LIG"
      [⟨"A1", 1, 0, 0, "C"⟩, ⟨"A2", 2, 0, 0, "C"⟩, ⟨"A3", 3, 0, 0, "C"⟩,
       ⟨"A4", 4, 0, 0, "C"⟩, ⟨"A5", 5, 0, 0, "C"⟩, ⟨"A6", 6, 0, 0, "N"⟩,
       ⟨"A7", 7, 0, 0, "N"⟩, ⟨"A8", 8, 0, 0, "N"⟩, ⟨"A9", 9, 0, 0, "O"⟩,
       ⟨"A10", 10, 0, 0, "O"⟩]).getD 13 ⟨0, [], [], []⟩).elems =
      getElementId "P" :: List.replicate 26 0 ∧
    (∃ a : Atom, ([⟨"A1", 1, 0, 0, "C"⟩, ⟨"A2", 2, 0, 0, "C"⟩, ⟨"A3", 3, 0, 0, "C"⟩,
       ⟨"A4", 4, 0, 0, "C"⟩, ⟨"A5", 5, 0, 0, "C"⟩, ⟨"A6", 6, 0, 0, "N"⟩,
       ⟨"A7", 7, 0, 0, "N"⟩, ⟨"A8", 8, 0, 0, "N"⟩, ⟨"A9", 9, 0, 0, "O"⟩,
       (⟨"A10", 10, 0, 0, "O"⟩ : Atom)].filter
        (fun b => pyStrip b.name = "A5")).getLast? = some a ∧
      a ∈ [⟨"A1", 1, 0, 0, "C"⟩, ⟨"A2", 2, 0, 0, "C"⟩, ⟨"A3", 3, 0, 0, "C"⟩,
       ⟨"A4", 4, 0, 0, "C"⟩, ⟨"A5", 5, 0, 0, "C"⟩, ⟨"A6", 6, 0, 0, "N"⟩,
       ⟨"A7", 7, 0, 0, "N"⟩, ⟨"A8", 8, 0, 0, "N"⟩, ⟨"A9", 9, 0, 0, "O"⟩,
       (⟨"A10", 10, 0, 0, "O"⟩ : Atom)] ∧ pyStrip a.name = "A5" ∧
      ((processLigandResidue [("LIG", [("A1", "C"), ("A2", "C"), ("A3", "C"), ("A4", "C"),
        ("A5", "C"), ("A6", "N"), ("A7", "N"), ("A8", "N"), ("A9", "O"), ("A10", "O"),
        ("A11", "O"), ("A12", "S"), ("A13", "S"), ("A14", "P")])] "LIG"
      [⟨"A1", 1, 0, 0, "C"⟩, ⟨"A2", 2, 0, 0, "C"⟩, ⟨"A3", 3, 0, 0, "C"⟩,
       ⟨"A4", 4, 0, 0, "C"⟩, ⟨"A5", 5, 0, 0, "C"⟩, ⟨"A6", 6, 0, 0, "N"⟩,
       ⟨"A7", 7, 0, 0, "N"⟩, ⟨"A8", 8, 0, 0, "N"⟩, ⟨"A9", 9, 0, 0, "O"⟩,
       ⟨"A10", 10, 0, 0, "O"⟩]).getD 4 ⟨0, [], [], []⟩).mask = 1 :: List.replicate 26 0 ∧
      ((processLigandResidue [("LIG", [("A1", "C"), ("A2", "C"), ("A3", "C"), ("A4", "C"),
        ("A5", "C"), ("A6", "N"), ("A7", "N"), ("A8", "N"), ("A9", "O"), ("A10", "O"),
        ("A11", "O"), ("A12", "S"), ("A13", "S"), ("A14", "P")])] "LIG"
      [⟨"A1", 1, 0, 0, "C"⟩, ⟨"A2", 2, 0, 0, "C"⟩, ⟨"A3", 3, 0, 0, "C"⟩,
       ⟨"A4", 4, 0, 0, "C"⟩, ⟨"A5", 5, 0, 0, "C"⟩, ⟨"A6", 6, 0, 0, "N"⟩,
       ⟨"A7", 7, 0, 0, "N"⟩, ⟨"A8", 8, 0, 0, "N"⟩, ⟨"A9", 9, 0, 0, "O"⟩,
       ⟨"A10", 10, 0, 0, "O"⟩]).getD 4 ⟨0, [], [], []⟩).coords =
        (a.x, a.y, a.z) :: List.replicate 26 (0, 0, 0)) :=
  ⟨by decide, by decide, by decide, by decide, by decide, by
    have h := ((process_ligand_reference_tokens
      [("LIG", [("A1", "C"), ("A2", "C"), ("A3", "C"), ("A4", "C"), ("A5", "C"),
        ("A6", "N"), ("A7", "N"), ("A8", "N"), ("A9", "O"), ("A10", "O"),
        ("A11", "O"), ("A12", "S"), ("A13", "S"), ("A14", "P")])] "LIG"
      [⟨"A1", 1, 0, 0, "C"⟩, ⟨"A2", 2, 0, 0, "C"⟩, ⟨"A3", 3, 0, 0, "C"⟩,
       ⟨"A4", 4, 0, 0, "C"⟩, ⟨"A5", 5, 0, 0, "C"⟩, ⟨"A6", 6, 0, 0, "N"⟩,
       ⟨"A7", 7, 0, 0, "N"⟩, ⟨"A8", 8, 0, 0, "N"⟩, ⟨"A9", 9, 0, 0, "O"⟩,
       ⟨"A10", 10, 0, 0, "O"⟩] (by decide)).2
      [("A1", "C"), ("A2", "C"), ("A3", "C"), ("A4", "C"), ("A5", "C"),
        ("A6", "N"), ("A7", "N"), ("A8", "N"), ("A9", "O"), ("A10", "O"),
        ("A11", "O"), ("A12", "S"), ("A13", "S"), ("A14", "P")] (by decide)).2 13 (by decide)
    exact h.2.1, by
    have h := ((process_ligand_reference_tokens
      [("LIG", [("A1", "C"), ("A2", "C"), ("A3", "C"), ("A4", "C"), ("A5", "C"),
        ("A6", "N"), ("A7", "N"), ("A8", "N"), ("A9", "O"), ("A10", "O"),
        ("A11", "O"), ("A12", "S"), ("A13", "S"), ("A14", "P")])] "LIG"
      [⟨"A1", 1, 0, 0, "C"⟩, ⟨"A2", 2, 0, 0, "C"⟩, ⟨"A3", 3, 0, 0, "C"⟩,
       ⟨"A4", 4, 0, 0, "C"⟩, ⟨"A5", 5, 0, 0, "C"⟩, ⟨"A6", 6, 0, 0, "N"⟩,
       ⟨"A7", 7, 0, 0, "N"⟩, ⟨"A8", 8, 0, 0, "N"⟩, ⟨"A9", 9, 0, 0, "O"⟩,
       ⟨"A10", 10, 0, 0, "O"⟩] (by decide)).2
      [("A1", "C"), ("A2", "C"), ("A3", "C"), ("A4", "C"), ("A5", "C"),
        ("A6", "N"), ("A7", "N"), ("A8", "N"), ("A9", "O"), ("A10", "O"),
        ("A11", "O"), ("A12", "S"), ("A13", "S"), ("A14", "P")] (by decide)).2 4 (by decide)
    exact h.2.2.2 (by decide)⟩

end Maxyfold
